
import Mathlib

/-!
Shallow embedding of the query diagnostic pipeline of the
`mcp_db_performance` repository, together with proofs about it.

Source files embedded here:
  * `server/history_tracker.py`        (fingerprinting, history comparison)
  * `server/tools/oracle_collector_impl.py` (validation, plan acquisition,
    metadata collection, diagnostic detectors, presets, main pipeline)
  * `server/tools/plan_visualizer.py`  (ASCII plan rendering)
  * `server/tools/oracle_analysis.py`  (the `analyze_oracle_query` entry point)

Conventions used throughout:
  * Python strings are Lean `String`s; all inputs considered are ASCII, so
    Python `str.upper` agrees with `Char.toUpper` mapping.
  * Python `None`/scalar values inside data rows are modelled by the `Val`
    type below; database rows (`dict(zip(cols, row))`) are association
    lists `Row := List (String × Val)`.
  * Python float arithmetic is modelled by exact rationals `ℚ`.
  * Operations that would raise `TypeError` in Python on non-numeric
    operands are modelled as total functions returning a default; every
    theorem that depends on such an operation carries hypotheses keeping
    the relevant values in the numeric range actually produced by the
    database layer.
-/

set_option maxRecDepth 10000

/-- The quote character `U+0027`, kept as a named constant. -/
def qc : Char := Char.ofNat 39

/-- Wrap a string in single quotes, as SQL string literals are written. -/
def qs (s : String) : String := String.singleton qc ++ s ++ String.singleton qc

/-- Word character for the Python regex `\b` boundary and `\w` class
(ASCII fragment: letters, digits, underscore). -/
def isWordChar (c : Char) : Bool := c.isAlphanum || c = '_'

/-- Python `\s` (ASCII fragment): space, tab, newline, carriage return,
form feed, vertical tab. -/
def isPySpace (c : Char) : Bool :=
  c = ' ' || c = Char.ofNat 9 || c = Char.ofNat 10 || c = Char.ofNat 13 ||
  c = Char.ofNat 12 || c = Char.ofNat 11

/-- Python `str.rstrip(";")`: remove all trailing semicolons. -/
def rstripSemis (l : List Char) : List Char :=
  (l.reverse.dropWhile (fun c => c = ';')).reverse

/-- Python `str.strip()` on a character list. -/
def stripWs (l : List Char) : List Char :=
  ((l.dropWhile isPySpace).reverse.dropWhile isPySpace).reverse

/-- Scanner for `re.sub(r"\b\d+\b", ":N", s)`.
`prevWord` records whether the previous character was a word character
(the `\b` context); `runAcc` buffers a digit run whose fate depends on the
character that follows it. -/
def numSubGo (prevWord : Bool) (runAcc : Option (List Char)) :
    List Char → List Char
  | [] =>
    match runAcc with
    | some _ => [':', 'N']
    | none => []
  | c :: cs =>
    match runAcc with
    | some acc =>
      if c.isDigit then numSubGo prevWord (some (acc ++ [c])) cs
      else if isWordChar c then acc ++ (c :: numSubGo true none cs)
      else ':' :: 'N' :: c :: numSubGo (isWordChar c) none cs
    | none =>
      if c.isDigit && !prevWord then numSubGo true (some [c]) cs
      else c :: numSubGo (isWordChar c) none cs

/-- `re.sub(r"\b\d+\b", ":N", s)` over a character list. -/
def numSub (l : List Char) : List Char := numSubGo false none l

/-- Scanner for `re.sub(r"'[^']*'", ":S", s)`. `pending = some acc` means
an opening quote has been seen and `acc` holds the characters since it. -/
def strSubGo (pending : Option (List Char)) : List Char → List Char
  | [] =>
    match pending with
    | some acc => qc :: acc
    | none => []
  | c :: cs =>
    match pending with
    | some acc =>
      if c = qc then ':' :: 'S' :: strSubGo none cs
      else strSubGo (some (acc ++ [c])) cs
    | none =>
      if c = qc then strSubGo (some []) cs
      else c :: strSubGo none cs

/-- `re.sub(r"'[^']*'", ":S", s)` over a character list. -/
def strSub (l : List Char) : List Char := strSubGo none l

/-- Scanner for `re.sub(r"\s+", " ", s)`: each maximal whitespace run
becomes a single space. -/
def wsGo (inRun : Bool) : List Char → List Char
  | [] => []
  | c :: cs =>
    if isPySpace c then
      if inRun then wsGo true cs else ' ' :: wsGo true cs
    else c :: wsGo false cs

/-- `re.sub(r"\s+", " ", s)` over a character list. -/
def wsCollapse (l : List Char) : List Char := wsGo false l

/-- The normalization performed by
`QueryHistoryTracker.normalize_and_hash` before hashing:
`sql.rstrip(";").strip()`, then number and quoted-string placeholder
substitution, then whitespace collapsing, strip and uppercase. -/
def sqlNormalize (s : String) : String :=
  let l := stripWs (rstripSemis s.data)
  let l := numSub l
  let l := strSub l
  let l := stripWs (wsCollapse l)
  String.mk (l.map Char.toUpper)

/-! UTF-8 encoding and MD5, needed because the fingerprint is
`hashlib.md5(normalized.encode()).hexdigest()`. -/

/-- UTF-8 encoding of one character, as byte values. -/
def utf8Bytes (c : Char) : List Nat :=
  let n := c.toNat
  if n < 128 then [n]
  else if n < 2048 then [192 + n / 64, 128 + n % 64]
  else if n < 65536 then [224 + n / 4096, 128 + n / 64 % 64, 128 + n % 64]
  else [240 + n / 262144, 128 + n / 4096 % 64, 128 + n / 64 % 64, 128 + n % 64]

/-- UTF-8 encoding of a string (Python `str.encode()`). -/
def utf8Encode (s : String) : List Nat := s.data.flatMap utf8Bytes

/-- Truncate to 32 bits. -/
def m32 (x : Nat) : Nat := x % 4294967296

/-- 32-bit left rotation. -/
def rotl32 (s x : Nat) : Nat :=
  m32 ((x <<< s) ||| (x >>> (32 - s)))

/-- The 64 MD5 sine-derived constants (RFC 1321). -/
def md5K : List Nat :=
  [3614090360, 3905402710, 606105819, 3250441966, 4118548399, 1200080426,
   2821735955, 4249261313, 1770035416, 2336552879, 4294925233, 2304563134,
   1804603682, 4254626195, 2792965006, 1236535329, 4129170786, 3225465664,
   643717713, 3921069994, 3593408605, 38016083, 3634488961, 3889429448,
   568446438, 3275163606, 4107603335, 1163531501, 2850285829, 4243563512,
   1735328473, 2368359562, 4294588738, 2272392833, 1839030562, 4259657740,
   2763975236, 1272893353, 4139469664, 3200236656, 681279174, 3936430074,
   3572445317, 76029189, 3654602809, 3873151461, 530742520, 3299628645,
   4096336452, 1126891415, 2878612391, 4237533241, 1700485571, 2399980690,
   4293915773, 2240044497, 1873313359, 4264355552, 2734768916, 1309151649,
   4149444226, 3174756917, 718787259, 3951481745]

/-- The 64 MD5 per-round shift amounts. -/
def md5S : List Nat :=
  [7, 12, 17, 22, 7, 12, 17, 22, 7, 12, 17, 22, 7, 12, 17, 22,
   5, 9, 14, 20, 5, 9, 14, 20, 5, 9, 14, 20, 5, 9, 14, 20,
   4, 11, 16, 23, 4, 11, 16, 23, 4, 11, 16, 23, 4, 11, 16, 23,
   6, 10, 15, 21, 6, 10, 15, 21, 6, 10, 15, 21, 6, 10, 15, 21]

/-- MD5 padding: append `0x80`, zero bytes to 56 mod 64, then the bit
length as 8 little-endian bytes. -/
def md5Pad (msg : List Nat) : List Nat :=
  let len := msg.length
  let zeros := (119 - len % 64) % 64
  let bitLen := (8 * len) % 18446744073709551616
  msg ++ (128 :: List.replicate zeros 0) ++
    (List.range 8).map (fun i => bitLen >>> (8 * i) % 256)

/-- Split a list into chunks of `k` elements (fuel-driven so that the
definition is structural and kernel-reducible). -/
def chunksGo {α : Type} (k : Nat) : Nat → List α → List (List α)
  | 0, _ => []
  | _ + 1, [] => []
  | fuel + 1, l => l.take k :: chunksGo k fuel (l.drop k)

/-- Split a list into chunks of `k` elements. -/
def chunks {α : Type} (k : Nat) (l : List α) : List (List α) :=
  chunksGo k l.length l

/-- Interpret 4 little-endian bytes as a 32-bit word. -/
def leWord : List Nat → Nat
  | [a, b, c, d] => a + 256 * b + 65536 * c + 16777216 * d
  | _ => 0

/-- The MD5 word schedule index for round `i`. -/
def md5G (i : Nat) : Nat :=
  if i < 16 then i
  else if i < 32 then (5 * i + 1) % 16
  else if i < 48 then (3 * i + 5) % 16
  else (7 * i) % 16

/-- The MD5 nonlinear function for round `i`. -/
def md5F (i b c d : Nat) : Nat :=
  if i < 16 then (b &&& c) ||| ((b ^^^ 4294967295) &&& d)
  else if i < 32 then (d &&& b) ||| ((d ^^^ 4294967295) &&& c)
  else if i < 48 then b ^^^ c ^^^ d
  else c ^^^ (b ||| (d ^^^ 4294967295))

/-- One MD5 block transformation. -/
def md5Block (st : Nat × Nat × Nat × Nat) (block : List Nat) :
    Nat × Nat × Nat × Nat :=
  let M := (chunks 4 block).map leWord
  let r := (List.range 64).foldl
    (fun (s : Nat × Nat × Nat × Nat) i =>
      let (a, b, c, d) := s
      let f := m32 (md5F i b c d + a + md5K.getD i 0 + M.getD (md5G i) 0)
      (d, m32 (b + rotl32 (md5S.getD i 0) f), b, c))
    st
  let (a0, b0, c0, d0) := st
  let (a, b, c, d) := r
  (m32 (a0 + a), m32 (b0 + b), m32 (c0 + c), m32 (d0 + d))

/-- Hex character for a nibble. -/
def hexChar (n : Nat) : Char :=
  if n < 10 then Char.ofNat (48 + n) else Char.ofNat (87 + n)

/-- Two-character lowercase hex rendering of a byte. -/
def byteHex (b : Nat) : List Char := [hexChar (b / 16 % 16), hexChar (b % 16)]

/-- Little-endian byte expansion of a 32-bit word. -/
def wordBytes (w : Nat) : List Nat :=
  [w % 256, w >>> 8 % 256, w >>> 16 % 256, w >>> 24 % 256]

/-- MD5 hex digest of a byte list. -/
def md5hex (msg : List Nat) : String :=
  let blocks := chunks 64 (md5Pad msg)
  let (a, b, c, d) := blocks.foldl md5Block
    (1732584193, 4023233417, 2562383102, 271733878)
  String.mk (((wordBytes a ++ wordBytes b ++ wordBytes c ++ wordBytes d).map
    byteHex).flatten)

/-- `QueryHistoryTracker.normalize_and_hash`: empty input maps to the
empty string, otherwise the normalized SQL is MD5-hashed. -/
def normalize_and_hash (sql : String) : String :=
  if sql = "" then "" else md5hex (utf8Encode (sqlNormalize sql))

/-! ## Scalar Python values and database rows -/

/-- Scalar Python value as it appears in database-derived rows.  The
catalog and plan queries embedded here only ever yield scalars (strings,
numbers, NULL), so no collection constructor is needed. -/
inductive Val where
  | vNull
  | vBool (b : Bool)
  | vInt (n : ℤ)
  | vRat (q : ℚ)
  | vStr (s : String)
  deriving DecidableEq

/-- A database row `dict(zip(cols, r))`: ordered key-value pairs. -/
abbrev Row := List (String × Val)

/-- Python `row.get(k, default)`.  With `default = Val.vNull` this is also
`row.get(k)`; for the rows built by this code, whose keys come from a
fixed SQL select list, it also models `row[k]`.  Later bindings win, as in
a dict built left to right. -/
def rget (r : Row) (k : String) (d : Val) : Val :=
  match r.reverse.find? (fun kv => kv.1 == k) with
  | some kv => kv.2
  | none => d

/-- Numeric view of a value; Python treats `bool` as an integer. -/
def toNumQ : Val → Option ℚ
  | .vBool b => some (if b then 1 else 0)
  | .vInt n => some (n : ℚ)
  | .vRat q => some q
  | _ => none

/-- Numeric value of an operand of Python arithmetic.  Python raises
`TypeError` when the operand is not numeric; the embedding returns `0`
there, and every theorem relying on such an operation keeps the operand
numeric via its hypotheses or concrete data. -/
def valNum (a : Val) : ℚ := (toNumQ a).getD 0

/-- Python `==` on scalar values: cross-type numeric equality
(`5 == 5.0`, `True == 1`), same-type comparison otherwise, `False`
across unrelated types. -/
def pyEqB (a b : Val) : Bool :=
  match toNumQ a, toNumQ b with
  | some x, some y => x == y
  | _, _ =>
    match a, b with
    | .vNull, .vNull => true
    | .vStr s, .vStr t => s == t
    | _, _ => false

/-- Python `x > k` for a row value against a numeric constant (Python
raises `TypeError` on non-numeric operands; see `valNum`). -/
def pyGt (a : Val) (k : ℚ) : Bool :=
  match toNumQ a with
  | some x => decide (k < x)
  | none => false

/-- Python `x < k` for a row value against a numeric constant. -/
def pyLt (a : Val) (k : ℚ) : Bool :=
  match toNumQ a with
  | some x => decide (x < k)
  | none => false

/-- Python truthiness of a scalar value. -/
def pyTruthy : Val → Bool
  | .vNull => false
  | .vBool b => b
  | .vInt n => n != 0
  | .vRat q => q != 0
  | .vStr s => s != ""

/-- Python `str(x)` for scalar values.  Floats never reach a string
position in the embedded code paths, so their rendering is nominal. -/
def pyToStr : Val → String
  | .vNull => "None"
  | .vBool true => "True"
  | .vBool false => "False"
  | .vInt n => toString n
  | .vRat q => toString q
  | .vStr s => s

/-! ## String helpers mirroring Python `str` methods -/

/-- Does `l` start with `p`? -/
def startsWithB : List Char → List Char → Bool
  | [], _ => true
  | _ :: _, [] => false
  | a :: as, b :: bs => a == b && startsWithB as bs

/-- Does `l` contain `p` as a contiguous run? -/
def containsB (p : List Char) : List Char → Bool
  | [] => startsWithB p []
  | l@(_ :: ls) => startsWithB p l || containsB p ls

/-- Python `sub in s` on strings. -/
def pyIn (sub s : String) : Bool := containsB sub.data s.data

/-- Number of occurrence positions of `p`.  For the patterns this code
counts (`JOIN`, `LEFT JOIN`, `LEFT OUTER JOIN`), which cannot overlap
themselves, this equals Python `s.count(p)`. -/
def countOcc (p : List Char) : List Char → Nat
  | [] => 0
  | l@(_ :: ls) => (if startsWithB p l then 1 else 0) + countOcc p ls

/-- Python `s.count(sub)` for non-self-overlapping `sub`. -/
def pyCount (sub s : String) : Nat := countOcc sub.data s.data

/-- Index of the first occurrence of `p`, if any (Python `s.index(sub)`,
which raises `ValueError` when absent — hence the `Option`). -/
def idxOf (p : List Char) : List Char → Option Nat
  | [] => if startsWithB p [] then some 0 else none
  | l@(_ :: ls) =>
    if startsWithB p l then some 0 else (idxOf p ls).map (· + 1)

/-- The characters after the first occurrence of `p`
(`s.split(pat, 1)[1]` when `pat` occurs). -/
def afterFirst (p : List Char) : List Char → List Char
  | [] => []
  | l@(_ :: ls) => if startsWithB p l then l.drop p.length else afterFirst p ls

/-- The characters before the first occurrence of `p`
(`s.split(pat)[0]`; the whole list when `pat` does not occur). -/
def beforeFirst (p : List Char) : List Char → List Char
  | [] => []
  | l@(c :: ls) => if startsWithB p l then [] else c :: beforeFirst p ls

/-- Python `s.strip()` (ASCII inputs). -/
def pyStrip (s : String) : String := String.mk (stripWs s.data)

/-- Python `s.upper()` (ASCII inputs). -/
def pyUpper (s : String) : String := String.mk (s.data.map Char.toUpper)

/-- Python `sep.join(xs)`. -/
def pyJoin (sep : String) (xs : List String) : String :=
  String.mk (List.intercalate sep.data (xs.map String.data))

/-- Python `s.startswith(p)`. -/
def pyStartsWith (p s : String) : Bool := startsWithB p.data s.data

/-! ## Computable rational arithmetic

The library marks the field operations on `ℚ` irreducible, which blocks
concrete evaluation; the pipeline arithmetic therefore goes through the
following reducible wrappers, each provably equal to the field
operation. -/

/-- Reducible addition on `ℚ`. -/
def qAdd (a b : ℚ) : ℚ :=
  Rat.divInt (a.num * b.den + b.num * a.den) ((a.den : ℤ) * b.den)

/-- Reducible subtraction on `ℚ`. -/
def qSub (a b : ℚ) : ℚ :=
  Rat.divInt (a.num * b.den - b.num * a.den) ((a.den : ℤ) * b.den)

/-- Reducible multiplication on `ℚ`. -/
def qMul (a b : ℚ) : ℚ := Rat.divInt (a.num * b.num) ((a.den : ℤ) * b.den)

/-- Reducible division on `ℚ`. -/
def qDiv (a b : ℚ) : ℚ := Rat.divInt (a.num * b.den) ((a.den : ℤ) * b.num)

/-- Reducible negation on `ℚ`. -/
def qNeg (a : ℚ) : ℚ := Rat.divInt (-a.num) a.den

/-- Reducible absolute value on `ℚ`. -/
def qAbs (a : ℚ) : ℚ := if a < 0 then qNeg a else a

/-! ## Python numeric formatting -/

/-- Round to the nearest integer, ties to even (Python `round`/format).
`f` is the floor of `q`; `r2` compares the fractional part against one
half after scaling by twice the denominator. -/
def roundHE (q : ℚ) : ℤ :=
  let f := q.num.fdiv q.den
  let r2 := 2 * (q.num - f * q.den)
  if r2 < (q.den : ℤ) then f
  else if (q.den : ℤ) < r2 then f + 1
  else if f % 2 = 0 then f else f + 1

/-- Python `round(x, d)` (on the exact rational model of the float). -/
def pyRound (q : ℚ) (d : Nat) : ℚ :=
  Rat.divInt (roundHE (qMul q ((10 ^ d : ℕ) : ℚ))) ((10 ^ d : ℕ) : ℤ)

/-- Python `f"{x:.0f}"`: round half-to-even to an integer; a negative
value rounding to zero renders as `-0`. -/
def pyFmt0f (q : ℚ) : String :=
  let r := roundHE q
  if r = 0 && q < 0 then "-0" else toString r

/-- Python `f"{x:+.0f}"`: as `pyFmt0f` but with an explicit sign. -/
def pyFmtPlus0f (q : ℚ) : String :=
  let r := roundHE q
  if r = 0 && q < 0 then "-0"
  else if 0 ≤ r then "+" ++ toString r
  else toString r

/-- Python `f"{n:,}"` for an integer: digits grouped in threes. -/
def pyFmtComma (n : ℤ) : String :=
  let ds := (toString n.natAbs).data
  let grouped := ((chunks 3 ds.reverse).map List.reverse).reverse
  (if n < 0 then "-" else "") ++ pyJoin (",") (grouped.map String.mk)

/-- Python `int(x)` on a float: truncation toward zero, which on the
rational model is T-division of numerator by denominator. -/
def pyInt (q : ℚ) : ℤ := q.num.tdiv q.den

/-! ## History tracker (`server/history_tracker.py`) -/

/-- One entry of the list built by
`QueryHistoryTracker.get_recent_history`, restricted to the keys that
`compare_with_history` reads (the remaining keys — timestamps, buffer
statistics, prior regression flags — are carried through but never
consumed by the comparison). `table_stats` is the JSON object stored by
`store_history`, whose keys are table-name strings. -/
structure HistEntry where
  plan_hash : Val
  cost : ℤ
  table_stats : List (String × Val)
  plan_operations : List String
  deriving DecidableEq

/-- The keys of the `current_facts` dict read by `compare_with_history`
(each via `.get` with a default). -/
structure CompareFacts where
  plan_details : List Row
  table_stats : List Row
  fingerprint : String
  db_name : String
  deriving DecidableEq

/-- The dict returned by `compare_with_history`; absent keys are `none`. -/
structure HistoryVerdict where
  status : String
  message : String
  cost_change_pct : Option ℚ := none
  table_growth : Option (List String) := none
  is_regression : Option Bool := none
  improved : Option Bool := none
  old_plan_hash : Option Val := none
  new_plan_hash : Option Val := none
  operation_changes : Option (List String) := none
  deriving DecidableEq

/-- Python dict lookup with default over `Val`-keyed entries
(`d.get(k, default)`); later bindings win. -/
def dictGetV (entries : List (Val × Val)) (k : Val) (d : Val) : Val :=
  match entries.reverse.find? (fun kv => pyEqB kv.1 k) with
  | some kv => kv.2
  | none => d

/-- `QueryHistoryTracker.compare_with_history`, as a pure function of its
inputs.  The `_update_regression_tracking` calls are writes to the
external history store and do not influence the returned dict, so they
are not modelled. -/
def compare_with_history (history : List HistEntry)
    (current_facts : CompareFacts) : HistoryVerdict :=
  match history with
  | [] =>
    { status := "new_query"
      message := "First time analyzing this query structure" }
  | last :: _ =>
    match current_facts.plan_details with
    | [] => { status := "no_plan", message := "No execution plan available" }
    | row0 :: _ =>
      let current_plan_hash := rget row0 ("plan_hash_value") (.vStr ("unknown"))
      let current_cost := rget row0 ("cost") (.vInt 0)
      let current_operations :=
        (current_facts.plan_details.take 5).map (fun step =>
          pyStrip (pyToStr (rget step ("operation") (.vStr "")) ++ " " ++
            pyToStr (rget step ("options") (.vStr ""))))
      if pyEqB last.plan_hash current_plan_hash then
        if pyEqB current_cost (.vInt 0) || last.cost = 0 then
          { status := "stable"
            message := "Plan unchanged (cost data unavailable)" }
        else
          let cost_change_pct :=
            qMul (qDiv (qSub (valNum current_cost) ((last.cost : ℤ) : ℚ))
              ((last.cost : ℤ) : ℚ)) 100
          if qAbs cost_change_pct < 10 then
            { status := "stable"
              cost_change_pct := some (pyRound cost_change_pct 1)
              message := "✅ Performance stable - consistent with previous execution" }
          else
            let current_tables := current_facts.table_stats.map (fun t =>
              (rget t ("table_name") .vNull, rget t ("num_rows") .vNull))
            let table_growth := (last.table_stats.filterMap (fun kv =>
              let old_rows := kv.2
              let new_rows := dictGetV current_tables (.vStr kv.1) old_rows
              if !pyEqB new_rows old_rows && pyGt old_rows 0 then
                let growth_pct :=
                  qMul (qDiv (qSub (valNum new_rows) (valNum old_rows))
                    (valNum old_rows)) 100
                some (kv.1 ++ ": " ++ pyFmtPlus0f growth_pct ++ "%")
              else none))
            let is_regression := decide ((0 : ℚ) < cost_change_pct)
            { status := if table_growth ≠ [] then "data_growth" else "cost_change"
              cost_change_pct := some (pyRound cost_change_pct 1)
              table_growth := some table_growth
              is_regression := some is_regression
              message :=
                if table_growth ≠ [] then
                  "⚠️  Cost changed " ++ pyFmtPlus0f cost_change_pct ++
                    "% - likely due to data growth: " ++ pyJoin (", ") table_growth
                else
                  "⚠️  Cost changed " ++ pyFmtPlus0f cost_change_pct ++
                    "% - performance " ++
                    (if is_regression then "regressed" else "improved") }
      else
        if pyEqB current_cost (.vInt 0) || last.cost = 0 then
          { status := "plan_changed"
            old_plan_hash := some last.plan_hash
            new_plan_hash := some current_plan_hash
            message := "⚠️  Execution plan changed (cost comparison unavailable)" }
        else
          let is_better := pyLt current_cost ((last.cost : ℤ) : ℚ)
          let cost_change_pct :=
            qMul (qDiv (qSub (valNum current_cost) ((last.cost : ℤ) : ℚ))
              ((last.cost : ℤ) : ℚ)) 100
          let old_ops := last.plan_operations
          let operation_changes :=
            (if current_operations.any (fun op => pyIn ("FULL") op) &&
                !(old_ops.any (fun op => pyIn ("FULL") op)) then
              [("Added FULL TABLE SCAN" : String)] else []) ++
            (if current_operations.any (fun op => pyIn ("INDEX") op) &&
                !(old_ops.any (fun op => pyIn ("INDEX") op)) then
              [("Now using INDEX" : String)] else [])
          { status := "plan_changed"
            improved := some is_better
            cost_change_pct := some (pyRound cost_change_pct 1)
            old_plan_hash := some last.plan_hash
            new_plan_hash := some current_plan_hash
            operation_changes := some operation_changes
            is_regression := some (!is_better)
            message :=
              if is_better then
                "✅ Plan improved " ++ pyFmt0f (qAbs cost_change_pct) ++
                  "%! Optimizer found better strategy."
              else
                "⚠️  Plan regressed " ++ pyFmt0f (qAbs cost_change_pct) ++
                  "%! Review optimizer statistics. Changes: " ++
                  (if operation_changes ≠ [] then pyJoin (", ") operation_changes
                   else "Unknown") }

/-- The per-request plan-artifact identifier generated by
`run_full_oracle_analysis`: `f"LLM_{int(datetime.now().timestamp())}"`,
as a function of the invocation start time in seconds. -/
def genStmtId (now : ℚ) : String := "LLM_" ++ toString (pyInt now)

/-! ## Oracle collector (`server/tools/oracle_collector_impl.py`) -/

/-- The regex class `[A-Z0-9_]` used by the extraction patterns (the
input is uppercased first, so lowercase letters cannot occur). -/
def isSqlWordChar (c : Char) : Bool := c.isUpper || c.isDigit || c = '_'

/-- `normalize_sql`: strip surrounding whitespace and at most one
trailing semicolon; empty/None input maps to the empty string. -/
def normalize_sql (s : String) : String :=
  if s = "" then ""
  else
    let t := stripWs s.data
    String.mk (if t.getLast? = some ';' then t.dropLast else t)

/-- Character-code comparison of strings (Python `<` on `str`,
restricted to ASCII where code points and `Char.toNat` agree). -/
def strLtB : List Char → List Char → Bool
  | [], [] => false
  | [], _ :: _ => true
  | _ :: _, [] => false
  | a :: as, b :: bs =>
    if a.toNat < b.toNat then true
    else if b.toNat < a.toNat then false
    else strLtB as bs

/-- Python `<=` on strings. -/
def strLeB (a b : List Char) : Bool := !strLtB b a

/-- Stable insertion into a sorted list (`sorted` building block). -/
def insertBy {α : Type} (le : α → α → Bool) (x : α) : List α → List α
  | [] => [x]
  | y :: ys => if le x y then x :: y :: ys else y :: insertBy le x ys

/-- Python `sorted` (insertion sort; stability is irrelevant here since
the sorted lists are duplicate-free). -/
def sortBy {α : Type} (le : α → α → Bool) : List α → List α
  | [] => []
  | x :: xs => insertBy le x (sortBy le xs)

/-- Python tuple comparison on `(owner, table)` pairs. -/
def pairLeB (a b : String × String) : Bool :=
  strLtB a.1.data b.1.data || (a.1 == b.1 && strLeB a.2.data b.2.data)

/-- Scanner for `re.findall(r"\b([A-Z0-9_]+)\.([A-Z0-9_]+)\b", s)`:
non-overlapping `WORD.WORD` matches with word boundaries.  Fuel-driven;
the fuel is the input length, and every step consumes at least one
character. -/
def qualScan : Nat → Bool → List Char → List (String × String)
  | 0, _, _ => []
  | _ + 1, _, [] => []
  | fuel + 1, prevWord, c :: cs =>
    if isSqlWordChar c && !prevWord then
      let run1 := List.takeWhile isSqlWordChar (c :: cs)
      let rest1 := List.dropWhile isSqlWordChar (c :: cs)
      match rest1 with
      | '.' :: rest2 =>
        let run2 := rest2.takeWhile isSqlWordChar
        let rest3 := rest2.dropWhile isSqlWordChar
        if run2.isEmpty then qualScan fuel true rest1
        else (String.mk run1, String.mk run2) :: qualScan fuel true rest3
      | _ => qualScan fuel true rest1
    else qualScan fuel (isWordChar c) cs

/-- Scanner for `re.findall(r"\b(?:FROM|JOIN)\s+([A-Z0-9_]+)\b", s)`. -/
def fromJoinScan : Nat → Bool → List Char → List String
  | 0, _, _ => []
  | _ + 1, _, [] => []
  | fuel + 1, prevWord, c :: cs =>
    if !prevWord &&
        (startsWithB ("FROM").data (c :: cs) ||
         startsWithB ("JOIN").data (c :: cs)) then
      let rest := (c :: cs).drop 4
      let ws := rest.takeWhile isPySpace
      let rest2 := rest.dropWhile isPySpace
      let run := rest2.takeWhile isSqlWordChar
      let rest3 := rest2.dropWhile isSqlWordChar
      if !ws.isEmpty && !run.isEmpty then
        String.mk run :: fromJoinScan fuel true rest3
      else fromJoinScan fuel (isWordChar c) cs
    else fromJoinScan fuel (isWordChar c) cs

/-- `extract_sql_objects`: qualified `(owner, table)` references (with
alias-looking and system owners dropped), then unqualified tables after
`FROM`/`JOIN` (owner `none`), deduplicated in order. -/
def extract_sql_objects (sql_text : String) : List (Option String × String) :=
  let s := pyUpper sql_text
  let qualified := qualScan s.data.length false s.data
  let step1 := qualified.foldl
    (fun (st : List (Option String × String) × List (Option String × String))
        (ot : String × String) =>
      let (seen, result) := st
      if ot.1 ≠ "DUAL" && ot.1 ≠ "SYS" && ot.1 ≠ "SYSTEM" &&
          ot.1.length > 1 then
        if (some ot.1, ot.2) ∈ seen then st
        else (seen ++ [(some ot.1, ot.2)], result ++ [(some ot.1, ot.2)])
      else st)
    ([], [])
  let unqualified := fromJoinScan s.data.length false s.data
  let step2 := unqualified.foldl
    (fun (st : List (Option String × String) × List (Option String × String))
        (t : String) =>
      let (seen, result) := st
      if t ≠ "SELECT" && t ≠ "DUAL" && t ≠ "WHERE" && t ≠ "TABLE" &&
          !(result.any (fun p => p.2 == t)) then
        if (none, t) ∈ seen then st
        else (seen ++ [((none : Option String), t)], result ++ [(none, t)])
      else st)
    step1
  step2.2

/-- Maximal `[A-Z0-9_]` runs of an uppercased string (the matches of
`re.findall(r"\b[A-Z0-9_]{2,}\b", s)` are exactly those of length ≥ 2,
since maximal runs always sit on word boundaries). -/
def runsScan : Nat → List Char → List (List Char)
  | 0, _ => []
  | _ + 1, [] => []
  | fuel + 1, c :: cs =>
    if isSqlWordChar c then
      (c :: cs).takeWhile isSqlWordChar ::
        runsScan fuel ((c :: cs).dropWhile isSqlWordChar)
    else runsScan fuel cs

/-- The keyword denylist of `extract_columns_from_sql` (`ROWNUM` is
listed twice in the source set literal; sets deduplicate). -/
def columnKeywords : List String :=
  ["SELECT", "FROM", "WHERE", "AND", "OR", "NOT", "IN", "EXISTS", "BETWEEN",
   "LIKE", "IS", "NULL", "AS", "ON", "JOIN", "INNER", "OUTER", "LEFT", "RIGHT",
   "CROSS", "UNION", "INTERSECT", "MINUS", "ORDER", "BY", "GROUP", "HAVING",
   "DISTINCT", "ALL", "ANY", "SOME", "CASE", "WHEN", "THEN", "ELSE", "END",
   "INTO", "VALUES", "INSERT", "UPDATE", "DELETE", "SET", "CREATE", "ALTER",
   "DROP", "TABLE", "VIEW", "INDEX", "SEQUENCE", "TRIGGER", "PROCEDURE",
   "FUNCTION", "PACKAGE", "CURSOR", "FETCH", "OPEN", "CLOSE", "COMMIT",
   "ROLLBACK", "SAVEPOINT", "GRANT", "REVOKE", "WITH", "CONNECT", "START",
   "ASC", "DESC", "NULLS", "FIRST", "LAST", "FOR", "TO", "OF", "DEFAULT",
   "CONSTRAINT", "PRIMARY", "FOREIGN", "KEY", "REFERENCES", "UNIQUE", "CHECK",
   "SYSDATE", "SYSTIMESTAMP", "DUAL", "ROWNUM", "ROWID", "LEVEL",
   "CHAR", "VARCHAR", "VARCHAR2", "NUMBER", "DATE", "TIMESTAMP", "CLOB", "BLOB",
   "TRUNC", "ROUND", "DECODE", "NVL", "COALESCE", "CAST", "EXTRACT",
   "COUNT", "SUM", "AVG", "MIN", "MAX", "STDDEV", "VARIANCE",
   "OVER", "PARTITION", "ROW_NUMBER", "RANK", "DENSE_RANK",
   "PRIOR", "NOCYCLE", "SIBLINGS"]

/-- `extract_columns_from_sql`: candidate column tokens — length ≥ 2,
not a keyword, first 100 distinct, sorted. -/
def extract_columns_from_sql (sql_text : String) : List String :=
  let s := pyUpper sql_text
  let tokens := ((runsScan s.data.length s.data).filter
    (fun r => 2 ≤ r.length)).map String.mk
  let columns := tokens.filter (fun t => t ∉ columnKeywords)
  let uniq := (columns.foldl
    (fun (st : List String × List String) col =>
      if col ∉ st.1 && st.2.length < 100 then (st.1 ++ [col], st.2 ++ [col])
      else st)
    ([], [])).2
  sortBy (fun a b => strLeB a.data b.data) uniq

/-! ## SQL safety validation -/

/-- Model of the database connection, giving the response to each of the
fixed plan/catalog queries that the collector can issue; `Except.error`
is a raised database exception with its message. -/
structure Cursor where
  planTableCheckRaw : Except String Unit
  createPlanTableRaw : Except String Unit
  deleteRaw : Except String Unit
  explainExecRaw : Except String Unit
  xplanDisplayRaw : Except String (List String)
  planObjectsRaw : Except String (List (String × String × Val × Val × Val))
  planDetailsRaw : Except String (List Row)
  tableStatsRaw : Except String (List Row)
  indexStatsRaw : Except String (List Row)
  indexColsRaw : Except String (List Row)
  partTablesRaw : Except String (List Row)
  partKeysRaw : Except String (List Row)
  colStatsRaw : Except String (List Row)
  constraintsRaw : Except String (List Row)
  optimizerRaw : Except String (List Row)
  dbaSegmentsRaw : Except String (List Row)
  userSegmentsRaw : Except String (List Row)
  rownumProbeRaw : Except String Unit

/-- The queries a run can issue, with the data-bearing arguments they
carry (`tbls` are the bind values identifying the tables asked about). -/
inductive Query where
  | planTableCheck
  | createPlanTable
  | deletePlan (stmt_id : String)
  | rownumProbe (sql : String)
  | explainExec (stmt_id : String) (sql : String)
  | xplanDisplay (stmt_id : String)
  | planObjects (stmt_id : String)
  | planDetails (stmt_id : String)
  | tableStats (tbls : List (String × String))
  | indexStats (tbls : List (String × String))
  | indexCols (tbls : List (String × String))
  | partTables (tbls : List (String × String))
  | partKeys (tbls : List (String × String))
  | colStats (tbls : List (String × String)) (cols : List String)
  | constraints (tbls : List (String × String))
  | optimizerParams
  | dbaSegments (tbls : List (String × String))
  | userSegments
  deriving DecidableEq

/-- `validate_sql` as it executes: its first statement is
`return True, None, False  # TEMP: Bypass for testing`, so every input —
including mutating and administrative SQL — is reported valid and not
dangerous, and no validation query is issued.  The checks below the
early return are dead code; they are embedded separately as
`validate_sql_checks`. -/
def validate_sql (_cur : Cursor) (_sql_text : String) :
    Bool × Option String × Bool :=
  (true, none, false)

/-- The `dangerous_keywords` denylist of the (dead) validation body. -/
def dangerousKeywords : List String :=
  ["INSERT", "UPDATE", "DELETE", "MERGE",
   "CREATE", "DROP", "ALTER", "TRUNCATE", "RENAME",
   "GRANT", "REVOKE",
   "COMMIT", "ROLLBACK", "SAVEPOINT",
   "SHUTDOWN", "STARTUP",
   "EXECUTE", "CALL",
   "BEGIN", "DECLARE"]

/-- First whitespace-separated word (`s.split()[0]`, or the empty string
when there is none). -/
def firstWord (s : String) : String :=
  String.mk ((s.data.dropWhile isPySpace).takeWhile (fun c => !isPySpace c))

/-- `re.search(r"\b<kw>\b", s)` for a keyword made of word characters:
some occurrence with non-word (or edge) context on both sides. -/
def wbGo (kw : List Char) : Nat → Bool → List Char → Bool
  | 0, _, _ => false
  | _ + 1, _, [] => false
  | fuel + 1, prevWord, c :: cs =>
    if !prevWord && startsWithB kw (c :: cs) &&
        (match (c :: cs).drop kw.length with
         | [] => true
         | d :: _ => !isWordChar d) then true
    else wbGo kw fuel (isWordChar c) cs

/-- Word-boundary keyword search over a string. -/
def wbSearch (kw : String) (s : String) : Bool :=
  wbGo kw.data s.data.length false s.data

/-- Maximal nesting depth reached by scanning parentheses left to right
(the `paren_depth`/`max_depth` loop). -/
def parenMaxDepth (l : List Char) : ℤ :=
  (l.foldl
    (fun (st : ℤ × ℤ) c =>
      if c = '(' then (st.1 + 1, max st.2 (st.1 + 1))
      else if c = ')' then (st.1 - 1, st.2)
      else st)
    (0, 0)).2

/-- The validation logic sitting below the early return of
`validate_sql` (dead code in the source, lines 134–206): entry-keyword
check, keyword denylist with word boundaries, `INTO` check, parenthesis
depth bound, and the `ROWNUM = 0` probe.  Returns
`(is_valid, error_message, is_dangerous)`. -/
def validate_sql_checks (cur : Cursor) (sql_text : String) :
    Bool × Option String × Bool :=
  let clean0 := pyUpper (pyStrip sql_text)
  let clean := if clean0.data.getLast? = some ';' then
      String.mk clean0.data.dropLast else clean0
  let fw := firstWord clean
  if fw = "WITH" && !pyIn ("SELECT") clean then
    (false, some ("No SELECT found in query with WITH clause"), true)
  else if fw ≠ "WITH" && fw ≠ "SELECT" then
    (false, some ("Only SELECT queries are allowed. Found: " ++ fw), true)
  else
    match dangerousKeywords.find? (fun kw => wbSearch kw clean) with
    | some kw =>
      (false,
       some ("DANGEROUS OPERATION BLOCKED: " ++ kw ++
         " statements are not allowed"), true)
    | none =>
      if wbSearch ("INTO") clean then
        (false, some ("DANGEROUS OPERATION BLOCKED: SELECT INTO is not allowed"),
         true)
      else if 10 < parenMaxDepth clean.data then
        (false,
         some ("Query too complex: subquery nesting depth " ++
           toString (parenMaxDepth clean.data) ++ " exceeds limit of 10"),
         false)
      else
        match cur.rownumProbeRaw with
        | .ok _ => (true, none, false)
        | .error e =>
          let msg := if pyIn ("ORA-") e then
              String.mk (beforeFirst [Char.ofNat 10] e.data) else e
          (false, some msg, false)

/-! ## Plan acquisition -/

/-- `explain_plan`: plan-table existence check (attempting creation on
failure, both swallowed), stale-row delete, validation (bypassed, see
`validate_sql`), `EXPLAIN PLAN`, and display read-back.  Any exception in
the `try` body is caught and converted into
`(["(EXPLAIN PLAN failed: e)"], e)`.  Returns the pair
`(display_lines, error)` together with the list of issued queries. -/
def explain_plan (cur : Cursor) (sql_text stmt_id : String) :
    (List String × Option String) × List Query :=
  let checkLog := match cur.planTableCheckRaw with
    | .ok _ => [Query.planTableCheck]
    | .error _ => [Query.planTableCheck, Query.createPlanTable]
  match cur.deleteRaw with
  | .error e =>
    ((["(EXPLAIN PLAN failed: " ++ e ++ ")"], some e),
     checkLog ++ [Query.deletePlan stmt_id])
  | .ok _ =>
    let clean := let t := stripWs sql_text.data
      String.mk (if t.getLast? = some ';' then t.dropLast else t)
    let v := validate_sql cur clean
    if v.2.2 then
      ((["SECURITY BLOCK: " ++ (v.2.1.getD ("None"))], v.2.1),
       checkLog ++ [Query.deletePlan stmt_id])
    else if !v.1 then
      ((["SQL VALIDATION ERROR: " ++ (v.2.1.getD ("None"))], v.2.1),
       checkLog ++ [Query.deletePlan stmt_id])
    else
      match cur.explainExecRaw with
      | .error e =>
        ((["(EXPLAIN PLAN failed: " ++ e ++ ")"], some e),
         checkLog ++ [Query.deletePlan stmt_id, Query.explainExec stmt_id clean])
      | .ok _ =>
        match cur.xplanDisplayRaw with
        | .error e =>
          ((["(EXPLAIN PLAN failed: " ++ e ++ ")"], some e),
           checkLog ++ [Query.deletePlan stmt_id,
             Query.explainExec stmt_id clean, Query.xplanDisplay stmt_id])
        | .ok lines =>
          ((lines, none),
           checkLog ++ [Query.deletePlan stmt_id,
             Query.explainExec stmt_id clean, Query.xplanDisplay stmt_id])

/-- Set-style insertion keeping first occurrences (the model of adding
to a Python `set`, iterated in a canonical encounter order; every
consumer of these lists is order-insensitive). -/
def setInsert {α : Type} [DecidableEq α] (l : List α) (x : α) : List α :=
  if x ∈ l then l else l ++ [x]

/-- `get_plan_objects`: classify each plan object row as INDEX (by
object type, else by an operation mentioning INDEX) or TABLE; errors
degrade to empty lists.  Row shape:
`(object_owner, object_name, object_type, operation, options)`, the
first two non-null by the query filter. -/
def get_plan_objects (cur : Cursor) (stmt_id : String) :
    (List (String × String) × List (String × String)) × List Query :=
  match cur.planObjectsRaw with
  | .error _ => (([], []), [Query.planObjects stmt_id])
  | .ok rows =>
    let step := rows.foldl
      (fun (st : List (String × String) × List (String × String)) r =>
        let (owner, name, obj_type, op, _opt) := r
        if obj_type = .vStr ("INDEX") || obj_type = .vStr ("INDEX PARTITION") ||
            obj_type = .vStr ("INDEX SUBPARTITION") then
          (st.1, setInsert st.2 (owner, name))
        else if pyTruthy op &&
            (match op with | .vStr s => pyIn ("INDEX") s | _ => false) then
          (st.1, setInsert st.2 (owner, name))
        else (setInsert st.1 (owner, name), st.2))
      ([], [])
    (step, [Query.planObjects stmt_id])

/-- `get_plan_details`: the structured plan rows ordered by id; errors
degrade to an empty list. -/
def get_plan_details (cur : Cursor) (stmt_id : String) :
    List Row × List Query :=
  match cur.planDetailsRaw with
  | .error _ => ([], [Query.planDetails stmt_id])
  | .ok rows => (rows, [Query.planDetails stmt_id])

/-! ## Metadata queries.  Each getter short-circuits to an empty result
without touching the database when the table list is empty; only
`get_optimizer_parameters` and `get_segment_sizes` wrap their query in a
`try`/`except` — the others let a database exception propagate. -/

/-- `get_table_stats` (no exception handling in the source). -/
def get_table_stats (cur : Cursor) (tables : List (String × String)) :
    Except String (List Row) × List Query :=
  if tables.isEmpty then (.ok [], [])
  else (cur.tableStatsRaw, [Query.tableStats tables])

/-- `get_index_stats` (no exception handling in the source). -/
def get_index_stats (cur : Cursor) (tables : List (String × String)) :
    Except String (List Row) × List Query :=
  if tables.isEmpty then (.ok [], [])
  else (cur.indexStatsRaw, [Query.indexStats tables])

/-- The compact per-index dicts built by `get_index_columns`
(note the output key is `owner` even though it carries `table_owner`). -/
structure IdxCols where
  owner : Val
  table_name : Val
  index_name : Val
  columns : List Val
  deriving DecidableEq

/-- Grouping key of `get_index_columns`. -/
def idxColKey (r : Row) : Val × Val × Val :=
  (rget r ("table_owner") .vNull, rget r ("table_name") .vNull,
   rget r ("index_name") .vNull)

/-- `get_index_columns`: group the `all_ind_columns` rows by
`(table_owner, table_name, index_name)` in first-occurrence order,
collecting the ordered column lists (no exception handling). -/
def get_index_columns (cur : Cursor) (tables : List (String × String)) :
    Except String (List IdxCols) × List Query :=
  if tables.isEmpty then (.ok [], [])
  else
    match cur.indexColsRaw with
    | .error e => (.error e, [Query.indexCols tables])
    | .ok rows =>
      let keys := rows.foldl (fun acc r => setInsert acc (idxColKey r)) []
      (.ok (keys.map (fun k =>
        ⟨k.1, k.2.1, k.2.2,
         (rows.filter (fun r => idxColKey r == k)).map
           (fun r => rget r ("column_name") .vNull)⟩)),
       [Query.indexCols tables])

/-- `get_partition_info`: partitioned-table rows and partition-key rows
from two queries (no exception handling). -/
def get_partition_info (cur : Cursor) (tables : List (String × String)) :
    Except String (List Row × List Row) × List Query :=
  if tables.isEmpty then (.ok ([], []), [])
  else
    match cur.partTablesRaw with
    | .error e => (.error e, [Query.partTables tables])
    | .ok pt =>
      match cur.partKeysRaw with
      | .error e => (.error e, [Query.partTables tables, Query.partKeys tables])
      | .ok ks =>
        (.ok (pt, ks), [Query.partTables tables, Query.partKeys tables])

/-- `get_column_stats`: also short-circuits when the candidate column
list is empty (no exception handling). -/
def get_column_stats (cur : Cursor) (tables : List (String × String))
    (sql_columns : List String) : Except String (List Row) × List Query :=
  if tables.isEmpty || sql_columns.isEmpty then (.ok [], [])
  else (cur.colStatsRaw, [Query.colStats tables sql_columns])

/-- The grouped constraint records built by `get_constraints`. -/
structure ConstraintG where
  owner : Val
  table_name : Val
  constraint_name : Val
  constraint_type : Val
  status : Val
  validated : Val
  rely : Val
  r_owner : Val
  r_constraint_name : Val
  columns : List Val
  deriving DecidableEq

/-- Grouping key of `get_constraints`. -/
def constraintKey (r : Row) : Val × Val × Val :=
  (rget r ("owner") .vNull, rget r ("table_name") .vNull,
   rget r ("constraint_name") .vNull)

/-- `get_constraints`: group the joined constraint/column rows by
`(owner, table, constraint)`; the first row of a group provides the
constraint fields, and truthy column names are collected in order (no
exception handling). -/
def get_constraints (cur : Cursor) (tables : List (String × String)) :
    Except String (List ConstraintG) × List Query :=
  if tables.isEmpty then (.ok [], [])
  else
    match cur.constraintsRaw with
    | .error e => (.error e, [Query.constraints tables])
    | .ok rows =>
      let keys := rows.foldl (fun acc r => setInsert acc (constraintKey r)) []
      (.ok (keys.map (fun k =>
        let r0 := (rows.find? (fun r => constraintKey r == k)).getD []
        ⟨rget r0 ("owner") .vNull, rget r0 ("table_name") .vNull,
         rget r0 ("constraint_name") .vNull, rget r0 ("constraint_type") .vNull,
         rget r0 ("status") .vNull, rget r0 ("validated") .vNull,
         rget r0 ("rely") .vNull, rget r0 ("r_owner") .vNull,
         rget r0 ("r_constraint_name") .vNull,
         (rows.filter (fun r => constraintKey r == k)).filterMap (fun r =>
           let c := rget r ("column_name") .vNull
           if pyTruthy c then some c else none)⟩)),
       [Query.constraints tables])

/-- `get_optimizer_parameters`: the only getter besides segment sizes
whose query is wrapped in `try`/`except`, degrading to `[]`. -/
def get_optimizer_parameters (cur : Cursor) : List Row × List Query :=
  match cur.optimizerRaw with
  | .ok rows => (rows, [Query.optimizerParams])
  | .error _ => ([], [Query.optimizerParams])

/-- `get_segment_sizes`: try `DBA_SEGMENTS`, fall back to
`USER_SEGMENTS`, degrade to `[]` when both fail. -/
def get_segment_sizes (cur : Cursor) (tables : List (String × String)) :
    List Row × List Query :=
  if tables.isEmpty then ([], [])
  else
    match cur.dbaSegmentsRaw with
    | .ok rows => (rows, [Query.dbaSegments tables])
    | .error _ =>
      match cur.userSegmentsRaw with
      | .ok rows => (rows, [Query.dbaSegments tables, Query.userSegments])
      | .error _ => ([], [Query.dbaSegments tables, Query.userSegments])

/-! ## Diagnostic detectors -/

/-- Python `sub in v` where `v` is a row value: defined only for string
values (Python raises `TypeError` otherwise). -/
def pyInV (sub : String) (v : Val) : Bool :=
  match v with
  | .vStr s => pyIn sub s
  | _ => false

/-- One partition-pruning diagnostic of `diagnose_partition_pruning`. -/
structure PartDiag where
  table : String
  partition_count : Val
  partitions_scanned : String
  severity : String
  issue : String
  possible_causes : List String
  deriving DecidableEq

/-- The fixed candidate-cause list of a pruning diagnostic. -/
def pruningCauses : List String :=
  ["Partition key not in WHERE clause",
   "Predicate uses function on partition key (prevents pruning)",
   "Data type mismatch (implicit conversion)",
   "Stale statistics",
   "Partition key value is bind variable (runtime pruning)"]

/-- `diagnose_partition_pruning`: for each partitioned table, each
`TABLE ACCESS` step on it whose partition window is `1..partition_count`
or ends at the `KEY` sentinel yields one diagnostic.  `sql_text` is
accepted but (as in the source) never used beyond uppercasing. -/
def diagnose_partition_pruning (plan_details : List Row)
    (partition_tables : List Row) (_sql_text : String) : List PartDiag :=
  if partition_tables.isEmpty || plan_details.isEmpty then []
  else
    partition_tables.flatMap (fun pt =>
      let owner := rget pt ("owner") .vNull
      let table_name := rget pt ("table_name") .vNull
      let part_count := rget pt ("partition_count") (.vInt 0)
      plan_details.filterMap (fun step =>
        if pyEqB (rget step ("object_owner") .vNull) owner &&
            pyEqB (rget step ("object_name") .vNull) table_name &&
            pyEqB (rget step ("operation") .vNull) (.vStr ("TABLE ACCESS")) then
          let pstart := rget step ("partition_start") .vNull
          let pstop := rget step ("partition_stop") .vNull
          if pyTruthy pstart && pyTruthy pstop then
            if (pyEqB pstart (.vStr ("1")) &&
                pyToStr pstop == pyToStr part_count) ||
                pyEqB pstop (.vStr ("KEY")) then
              some ⟨pyToStr owner ++ "." ++ pyToStr table_name, part_count,
                pyToStr pstart ++ " to " ++ pyToStr pstop, "HIGH",
                "All partitions scanned - partition pruning not working",
                pruningCauses⟩
            else none
          else none
        else none))

/-- The classification dict of `classify_query_intent` (`qi_type` models
the dict key `"type"`). -/
structure QueryIntent where
  qi_type : String
  patterns : List String
  typical_use : String
  complexity : String
  deriving DecidableEq

/-- `classify_query_intent`: ordered textual pattern checks updating one
record.  The CTE check calls `sql_upper.index("SELECT")` guarded only by
`"WITH" in sql_upper`, so a statement containing `WITH` but no `SELECT`
raises `ValueError` — hence the `Except`. -/
def classify_query_intent (sql_text : String) (_plan_details : List Row) :
    Except String QueryIntent :=
  let s := pyUpper sql_text
  let i0 : QueryIntent :=
    ⟨"unknown", [], "General data retrieval", "simple"⟩
  let i1 := if pyIn ("GROUP BY") s then
      (⟨"aggregation_report", i0.patterns ++ ["GROUP BY aggregation"],
        "Aggregated reporting or analytics", "moderate"⟩ : QueryIntent)
    else i0
  let i2 := if pyIn ("ROWNUM") s || pyIn ("FETCH FIRST") s ||
      (pyIn ("WHERE") s && pyIn ("ROW_NUMBER") s) then
      let base := { i1 with patterns := i1.patterns ++ ["result limiting"] }
      if i1.qi_type = "unknown" then
        { base with
          qi_type := "pagination_query"
          typical_use := "Paginated result set retrieval" }
      else base
    else i1
  let i3 := if pyIn ("ORDER BY") s && pyIn ("ROWNUM") s then
      { i2 with
        patterns := i2.patterns ++ ["top-N query"]
        qi_type := "top_n_query"
        typical_use := "Finding top/bottom N records" }
    else i2
  let i4 := if 2 ≤ pyCount ("LEFT JOIN") s ||
      2 ≤ pyCount ("LEFT OUTER JOIN") s then
      let base := { i3 with patterns := i3.patterns ++ ["multiple left joins"] }
      let base2 := if pyIn ("NOT NULL") s || pyIn ("IS NULL") s then
          { base with
            qi_type := "reconciliation_query"
            typical_use := "Data reconciliation between systems" }
        else base
      { base2 with complexity := "complex" }
    else i3
  let i5 := if pyIn ("UNION") s || pyIn ("UNION ALL") s then
      { i4 with
        patterns := i4.patterns ++ ["set operation"]
        qi_type := "multi_source_query"
        typical_use := "Combining data from multiple sources"
        complexity := "complex" }
    else i4
  let i6 := if 4 ≤ pyCount ("JOIN") s then
      let base := { i5 with complexity := "very_complex" }
      if i5.qi_type = "unknown" then
        { base with
          qi_type := "complex_join_query"
          typical_use := "Complex multi-table data retrieval" }
      else base
    else i5
  let i7 := if pyIn ("COUNT(*)") s || pyIn ("COUNT(") s then
      if !pyIn ("GROUP BY") s then
        { i6 with
          qi_type := "count_query"
          patterns := i6.patterns ++ ["record counting"]
          typical_use := "Data volume check or existence test" }
      else i6
    else i6
  let i8 := if pyStartsWith ("SELECT *") (pyStrip s) then
      let base := { i7 with patterns := i7.patterns ++ ["SELECT *"] }
      if i7.qi_type = "unknown" then
        { base with
          qi_type := "full_data_export"
          typical_use := "Full record export or data dump" }
      else base
    else i7
  let cte : Except String QueryIntent :=
    if pyIn ("WITH") s then
      match idxOf ("SELECT").data s.data with
      | none => .error ("ValueError: substring not found")
      | some iSel =>
        match idxOf ("WITH").data s.data with
        | none => .ok i8
        | some iWith =>
          if iWith < iSel then
            .ok { i8 with
              patterns := i8.patterns ++ ["CTE (Common Table Expression)"]
              complexity := "complex" }
          else .ok i8
    else .ok i8
  match cte with
  | .error e => .error e
  | .ok i9 =>
    .ok (if pyIn ("TRUNC(SYSDATE") s || pyIn ("SYSDATE -") s ||
        pyIn ("BETWEEN") s || pyIn ("TO_DATE") s then
      { i9 with patterns := i9.patterns ++ ["date range filter"] }
    else i9)

/-- One detection of `detect_cartesian_products` (`ct_type` models the
dict key `"type"`). -/
structure CartFinding where
  ct_type : String
  operation : String
  cardinality : Val
  step_id : Val
  has_join_predicate : Bool
  deriving DecidableEq

/-- `detect_cartesian_products`: a `NESTED LOOPS` step whose following
step carries neither predicate, with estimated rows above 100000; and
every explicit `MERGE JOIN CARTESIAN`. -/
def detect_cartesian_products (plan_details : List Row) : List CartFinding :=
  plan_details.enum.flatMap (fun iStep =>
    let i := iStep.1
    let step := iStep.2
    let operation := rget step ("operation") (.vStr "")
    let options := rget step ("options") (.vStr "")
    let cardinality := rget step ("cardinality") (.vInt 0)
    let nested :=
      if pyEqB operation (.vStr ("NESTED LOOPS")) then
        let has_predicate :=
          match plan_details.get? (i + 1) with
          | some nstep =>
            pyTruthy (rget nstep ("access_predicates") .vNull) ||
              pyTruthy (rget nstep ("filter_predicates") .vNull)
          | none => false
        if !has_predicate && pyTruthy cardinality &&
            pyGt cardinality 100000 then
          [(⟨"NESTED_LOOPS_NO_PREDICATE",
            pyStrip (pyToStr operation ++ " " ++ pyToStr options),
            cardinality, rget step ("id") .vNull, false⟩ : CartFinding)]
        else []
      else []
    let cart :=
      if pyEqB operation (.vStr ("MERGE JOIN")) &&
          pyInV ("CARTESIAN") options then
        [(⟨"EXPLICIT_CARTESIAN",
          pyStrip (pyToStr operation ++ " " ++ pyToStr options),
          cardinality, rget step ("id") .vNull, false⟩ : CartFinding)]
      else []
    nested ++ cart)

/-- One available-index record inside a full-scan finding.  The source
builds `{"name": idx["index_name"], "columns": idx.get("columns", []),
"type": idx.get("index_type"), "status": idx.get("status")}`; the
`all_indexes` rows never carry a `columns` key, so the `.get` default
`[]` always applies (`idx_type` models the dict key `"type"`). -/
structure IdxSummary where
  name : Val
  columns : List Val
  idx_type : Val
  status : Val
  deriving DecidableEq

/-- One finding of `detect_full_table_scans`
(`columns_in_where_clause` is the `where_columns` list). -/
structure FullScanFinding where
  operation : String
  table : String
  table_owner : Val
  table_name : Val
  num_rows : Val
  cost : Val
  cardinality : Val
  available_indexes : List IdxSummary
  available_index_count : Nat
  columns_in_where_clause : List Val
  deriving DecidableEq

/-- `detect_full_table_scans`: for each `TABLE ACCESS FULL` step whose
object has a (non-empty) entry in the table-stats lookup, emit a finding
with the row count, available indexes on that table, and the column-stat
column names occurring in the WHERE part of the SQL. -/
def detect_full_table_scans (plan_details table_stats index_stats
    column_stats : List Row) (sql_text : String) : List FullScanFinding :=
  let sql_upper := pyUpper sql_text
  plan_details.filterMap (fun step =>
    let operation := rget step ("operation") (.vStr "")
    let options := rget step ("options") (.vStr "")
    let obj_owner := rget step ("object_owner") .vNull
    let obj_name := rget step ("object_name") .vNull
    let cardinality := rget step ("cardinality") (.vInt 0)
    let cost := rget step ("cost") (.vInt 0)
    if pyEqB operation (.vStr ("TABLE ACCESS")) &&
        pyEqB options (.vStr ("FULL")) then
      match table_stats.reverse.find? (fun t =>
        pyEqB (rget t ("owner") .vNull) obj_owner &&
          pyEqB (rget t ("table_name") .vNull) obj_name) with
      | none => none
      | some table =>
        if table.isEmpty then none
        else
          let num_rows := rget table ("num_rows") (.vInt 0)
          let where_columns :=
            if pyIn ("WHERE") sql_upper then
              let after := afterFirst ("WHERE").data sql_upper.data
              let where_part := if pyIn ("ORDER BY") sql_upper then
                  beforeFirst ("ORDER BY").data after else after
              column_stats.filterMap (fun cs =>
                let cn := rget cs ("column_name") .vNull
                match cn with
                | .vStr c => if containsB c.data where_part then some cn else none
                | _ => none)
            else []
          let available_indexes := index_stats.filter (fun idx =>
            pyEqB (rget idx ("owner") .vNull) obj_owner &&
              pyEqB (rget idx ("table_name") .vNull) obj_name)
          some ⟨"FULL TABLE SCAN",
            pyToStr obj_owner ++ "." ++ pyToStr obj_name,
            obj_owner, obj_name, num_rows, cost, cardinality,
            available_indexes.map (fun idx =>
              ⟨rget idx ("index_name") .vNull, [],
               rget idx ("index_type") .vNull, rget idx ("status") .vNull⟩),
            available_indexes.length, where_columns⟩
    else none)

/-- One anomaly of `detect_anomalies` (tagged by the dict key `"type"`;
`est_quotient` models the dict key `"estimation_ratio"`). -/
inductive AnomalyFinding where
  | missing_statistics (table : String)
      (table_owner table_name num_rows last_analyzed : Val)
  | cardinality_mismatch (step_id operation estimated_rows actual_rows : Val)
      (est_quotient : ℚ)
  deriving DecidableEq

/-- `detect_anomalies`: tables with null/zero row counts, then plan
steps whose actual/estimated row quotient is outside the fixed band. -/
def detect_anomalies (table_stats plan_details : List Row) :
    List AnomalyFinding :=
  (table_stats.filterMap (fun t =>
    let num_rows := rget t ("num_rows") .vNull
    let last_analyzed := rget t ("last_analyzed") .vNull
    let owner := rget t ("owner") .vNull
    let name := rget t ("table_name") .vNull
    if num_rows = .vNull || pyEqB num_rows (.vInt 0) then
      some (.missing_statistics (pyToStr owner ++ "." ++ pyToStr name)
        owner name num_rows last_analyzed)
    else none)) ++
  (plan_details.filterMap (fun step =>
    let cardinality := rget step ("cardinality") (.vInt 0)
    let actual_rows := rget step ("actual_rows") (.vInt 0)
    if pyTruthy actual_rows && pyTruthy cardinality then
      let quot := if pyGt cardinality 0 then
          qDiv (valNum actual_rows) (valNum cardinality) else 0
      if decide ((10 : ℚ) < quot) ||
          (decide (quot < mkRat 1 10) && pyGt cardinality 100) then
        some (.cardinality_mismatch (rget step ("id") .vNull)
          (rget step ("operation") .vNull) cardinality actual_rows
          (pyRound quot 2))
      else none
    else none))

/-! ## Full fact set, output presets and the main pipeline -/

/-- The `summary` block of the full fact set. -/
structure Summary where
  tables : Nat
  indexes : Nat
  columns : Nat
  constraints : Nat
  partitioned_tables : Nat
  partition_issues : Nat
  full_scans_detected : Nat
  cartesian_detections : Nat
  anomalies_detected : Nat
  deriving DecidableEq

/-- The `full_facts` dict assembled by `run_full_oracle_analysis`.
Under the `minimal` preset the source stores `{}` (an empty dict) in
`optimizer_parameters` where the other presets store a list; both are
empty collections never read before the preset filter drops the key, so
a single list-typed field represents them. -/
structure Facts where
  sql_text : String
  execution_plan : List String
  plan_details : List Row
  table_stats : List Row
  index_stats : List Row
  index_columns : List IdxCols
  partition_tables : List Row
  partition_keys : List Row
  column_stats : List Row
  constraints : List ConstraintG
  optimizer_parameters : List Row
  segment_sizes : List Row
  partition_diagnostics : List PartDiag
  query_intent : QueryIntent
  full_table_scans : List FullScanFinding
  cartesian_detections : List CartFinding
  anomalies : List AnomalyFinding
  summary : Summary
  deriving DecidableEq

/-- The summary dict built by `get_plan_summary`
(`server/tools/plan_visualizer.py`). -/
structure PlanSummary where
  total_steps : Nat
  full_table_scans : Nat
  index_operations : Nat
  skip_scans : Nat
  nested_loops : Nat
  hash_joins : Nat
  partition_all_scans : Nat
  deriving DecidableEq

/-- The dict returned by `apply_output_preset`: any key can be absent.
The last four keys are never set by the collector itself; they are the
keys `analyze_oracle_query` adds to the facts dict afterwards. -/
structure FilteredFacts where
  sql_text : Option String := none
  execution_plan : Option (List String) := none
  plan_details : Option (List Row) := none
  table_stats : Option (List Row) := none
  index_stats : Option (List Row) := none
  index_columns : Option (List IdxCols) := none
  partition_tables : Option (List Row) := none
  partition_keys : Option (List Row) := none
  column_stats : Option (List Row) := none
  constraints : Option (List ConstraintG) := none
  optimizer_parameters : Option (List Row) := none
  segment_sizes : Option (List Row) := none
  partition_diagnostics : Option (List PartDiag) := none
  query_intent : Option QueryIntent := none
  full_table_scans : Option (List FullScanFinding) := none
  cartesian_detections : Option (List CartFinding) := none
  anomalies : Option (List AnomalyFinding) := none
  summary : Option Summary := none
  visual_plan : Option String := none
  plan_summary : Option (Option PlanSummary) := none
  historical_context : Option HistoryVerdict := none
  history_count : Option Nat := none
  deriving DecidableEq

/-- Is `(a, b)` — as Python values — a member of a set of string pairs?
Non-string components never match (a tuple containing `None` or a number
is unequal to every string pair). -/
def vpairMem (a b : Val) (l : List (String × String)) : Bool :=
  match a, b with
  | .vStr x, .vStr y => decide ((x, y) ∈ l)
  | _, _ => false

/-- `.get` on the compact dicts built by `get_index_columns`: the keys
present are `owner`, `table_name`, `index_name` and `columns`; any other
key — in particular the `table_owner` key that `apply_output_preset`
asks for — yields `None`.  (`columns` holds a list, which no embedded
caller requests through this accessor.) -/
def icGet (ic : IdxCols) (k : String) : Val :=
  if k = "owner" then ic.owner
  else if k = "table_name" then ic.table_name
  else if k = "index_name" then ic.index_name
  else .vNull

/-- The membership filter `(t.get("owner"), t.get("table_name")) in
plan_tables` applied to a table-stats row. -/
def tblInPlan (pt : List (String × String)) (t : Row) : Bool :=
  vpairMem (rget t ("owner") .vNull) (rget t ("table_name") .vNull) pt

/-- The four keys kept by the minimal preset for each table entry. -/
def minimalTableKeys : List String := ["owner", "table_name", "num_rows", "blocks"]

/-- `apply_output_preset`: `standard` passes the full fact set through;
`compact` keeps the structured plan and all cheap metadata but restricts
table/index/index-column/segment entries to plan objects; `minimal`
keeps only the plan, summary and a four-field projection of the
plan-relevant table entries.  An unrecognized preset value falls through
to the minimal skeleton, as in the source. -/
def apply_output_preset (facts : Facts) (preset : String)
    (plan_tables plan_indexes : List (String × String)) : FilteredFacts :=
  if preset = "standard" then
    { sql_text := some facts.sql_text
      execution_plan := some facts.execution_plan
      plan_details := some facts.plan_details
      table_stats := some facts.table_stats
      index_stats := some facts.index_stats
      index_columns := some facts.index_columns
      partition_tables := some facts.partition_tables
      partition_keys := some facts.partition_keys
      column_stats := some facts.column_stats
      constraints := some facts.constraints
      optimizer_parameters := some facts.optimizer_parameters
      segment_sizes := some facts.segment_sizes
      partition_diagnostics := some facts.partition_diagnostics
      query_intent := some facts.query_intent
      full_table_scans := some facts.full_table_scans
      cartesian_detections := some facts.cartesian_detections
      anomalies := some facts.anomalies
      summary := some facts.summary }
  else
    let filtered : FilteredFacts :=
      { sql_text := some facts.sql_text
        plan_details := some facts.plan_details
        summary := some facts.summary }
    if preset = "compact" then
      { filtered with
        table_stats := some (facts.table_stats.filter (tblInPlan plan_tables))
        index_stats := some (facts.index_stats.filter (fun i =>
          vpairMem (rget i ("owner") .vNull) (rget i ("index_name") .vNull)
            plan_indexes))
        index_columns := some (facts.index_columns.filter (fun ic =>
          vpairMem (icGet ic ("table_owner")) (icGet ic ("index_name"))
            plan_indexes))
        column_stats := some facts.column_stats
        constraints := some facts.constraints
        optimizer_parameters := some facts.optimizer_parameters
        segment_sizes := some (facts.segment_sizes.filter (fun sg =>
          vpairMem (rget sg ("owner") .vNull) (rget sg ("segment_name") .vNull)
            plan_tables ||
          vpairMem (rget sg ("owner") .vNull) (rget sg ("segment_name") .vNull)
            plan_indexes))
        partition_tables := some facts.partition_tables
        partition_keys := some facts.partition_keys
        partition_diagnostics := some facts.partition_diagnostics }
    else if preset = "minimal" then
      { filtered with
        table_stats := some
          ((facts.table_stats.filter (tblInPlan plan_tables)).map (fun t =>
            t.filter (fun kv => kv.1 ∈ minimalTableKeys))) }
    else filtered

/-- Python `f"{x:.2f}"` on the rational model. -/
def pyFmt2f (q : ℚ) : String :=
  let r := roundHE (qMul q 100)
  let neg := r < 0 || (r = 0 && q < 0)
  let a := r.natAbs
  (if neg then "-" else "") ++ toString (a / 100) ++ "." ++
    (if a % 100 < 10 then "0" else "") ++ toString (a % 100)

/-- The ambient configuration read by the collector
(`config.output_preset`). -/
structure Config where
  output_preset : String
  deriving DecidableEq

/-- The result dict of `run_full_oracle_analysis`. -/
structure CollectorResult where
  facts : FilteredFacts
  prompt : String
  deriving DecidableEq

/-- The values produced by the preset-conditional metadata-collection
block of `run_full_oracle_analysis` (lines 1070–1096). -/
structure MetaBundle where
  index_stats : List Row
  index_cols : List IdxCols
  part_tables : List Row
  part_keys : List Row
  col_stats : List Row
  constraints : List ConstraintG
  optimizer_params : List Row
  segment_sizes : List Row
  deriving DecidableEq

/-- The preset-conditional metadata collection: `minimal` collects
nothing beyond table stats; `compact` collects everything except
physical segment sizes; `standard` collects everything.  An exception in
any unwrapped getter propagates. -/
def collect_by_preset (preset : String) (cur : Cursor)
    (tables : List (String × String)) (sql_cols : List String) :
    Except String MetaBundle × List Query :=
  if preset = "minimal" then (.ok ⟨[], [], [], [], [], [], [], []⟩, [])
  else
    let r1 := get_index_stats cur tables
    match r1.1 with
    | .error e => (.error e, r1.2)
    | .ok index_stats =>
      let r2 := get_index_columns cur tables
      match r2.1 with
      | .error e => (.error e, r1.2 ++ r2.2)
      | .ok index_cols =>
        let r3 := get_partition_info cur tables
        match r3.1 with
        | .error e => (.error e, r1.2 ++ r2.2 ++ r3.2)
        | .ok parts =>
          let r4 := get_column_stats cur tables sql_cols
          match r4.1 with
          | .error e => (.error e, r1.2 ++ r2.2 ++ r3.2 ++ r4.2)
          | .ok col_stats =>
            let r5 := get_constraints cur tables
            match r5.1 with
            | .error e => (.error e, r1.2 ++ r2.2 ++ r3.2 ++ r4.2 ++ r5.2)
            | .ok constraints =>
              let r6 := get_optimizer_parameters cur
              let logs := r1.2 ++ r2.2 ++ r3.2 ++ r4.2 ++ r5.2 ++ r6.2
              if preset = "compact" then
                (.ok ⟨index_stats, index_cols, parts.1, parts.2, col_stats,
                  constraints, r6.1, []⟩, logs)
              else
                let r7 := get_segment_sizes cur tables
                (.ok ⟨index_stats, index_cols, parts.1, parts.2, col_stats,
                  constraints, r6.1, r7.1⟩, logs ++ r7.2)

/-- One step of the table merge in `run_full_oracle_analysis` (lines
1043–1059 of the source): an owner-qualified SQL reference is added to
the set, an unqualified one is skipped. -/
def qualStep (acc : List (String × String)) (obj : Option String × String) :
    List (String × String) :=
  match obj.1 with
  | some o => setInsert acc (o, obj.2)
  | none => acc

/-- The table list `run_full_oracle_analysis` computes (lines 1043–1059
of the source) and then keys every metadata getter on: the plan-derived
tables, merged with the owner-qualified references found in the raw SQL
text, sorted. -/
def analysisTables (cur : Cursor) (now : ℚ) (sql_text : String) :
    List (String × String) :=
  sortBy pairLeB ((extract_sql_objects (normalize_sql sql_text)).foldl
    qualStep (get_plan_objects cur (genStmtId now)).1.1)

/-- `run_full_oracle_analysis`.  Inputs beyond the source signature
`(cur, sql_text)` model ambient state: `cfg` is the global config whose
`output_preset` the function reads, `now` is the wall-clock reading that
seeds the statement id, and `elapsed` the duration reported in the
prompt.  The returned log lists every database query issued, in order;
`Except.error` is an exception propagating out of the function (no
`try` protects the metadata phase, the intent classifier, or the
detectors). -/
def run_full_oracle_analysis (cfg : Config) (now elapsed : ℚ)
    (cur : Cursor) (sql_text : String) :
    Except String CollectorResult × List Query :=
  let sql := normalize_sql sql_text
  let sql_cols := extract_columns_from_sql sql
  let stmt_id := genStmtId now
  let e1 := explain_plan cur sql stmt_id
  let xplan := e1.1.1
  let e2 := get_plan_objects cur stmt_id
  let plan_tables := e2.1.1
  let plan_indexes := e2.1.2
  let e3 := get_plan_details cur stmt_id
  let plan_details := e3.1
  let tables := analysisTables cur now sql_text
  let preset := cfg.output_preset
  let log0 := e1.2 ++ e2.2 ++ e3.2
  let r0 := get_table_stats cur tables
  match r0.1 with
  | .error e => (.error e, log0 ++ r0.2)
  | .ok table_stats =>
    let rc := collect_by_preset preset cur tables sql_cols
    match rc.1 with
    | .error e => (.error e, log0 ++ r0.2 ++ rc.2)
    | .ok mb =>
      let partition_diagnostics :=
        if !mb.part_tables.isEmpty then
          diagnose_partition_pruning plan_details mb.part_tables sql
        else []
      match classify_query_intent sql plan_details with
      | .error e => (.error e, log0 ++ r0.2 ++ rc.2)
      | .ok query_intent =>
        let cartesian_detections := detect_cartesian_products plan_details
        let full_table_scans :=
          if !mb.index_stats.isEmpty then
            detect_full_table_scans plan_details table_stats mb.index_stats
              mb.col_stats sql
          else []
        let anomalies := detect_anomalies table_stats plan_details
        let full_facts : Facts :=
          { sql_text := sql
            execution_plan := xplan
            plan_details := plan_details
            table_stats := table_stats
            index_stats := mb.index_stats
            index_columns := mb.index_cols
            partition_tables := mb.part_tables
            partition_keys := mb.part_keys
            column_stats := mb.col_stats
            constraints := mb.constraints
            optimizer_parameters := mb.optimizer_params
            segment_sizes := mb.segment_sizes
            partition_diagnostics := partition_diagnostics
            query_intent := query_intent
            full_table_scans := full_table_scans
            cartesian_detections := cartesian_detections
            anomalies := anomalies
            summary :=
              ⟨tables.length, mb.index_stats.length, mb.col_stats.length,
               mb.constraints.length, mb.part_tables.length,
               partition_diagnostics.length, full_table_scans.length,
               cartesian_detections.length, anomalies.length⟩ }
        let filtered_facts :=
          apply_output_preset full_facts preset plan_tables plan_indexes
        let prompt_parts :=
          ["✓ Oracle analysis complete in " ++ pyFmt2f elapsed ++ "s",
           "Preset: " ++ preset,
           "Tables: " ++ toString tables.length] ++
          (if !mb.index_stats.isEmpty then
            ["Indexes: " ++ toString mb.index_stats.length] else []) ++
          (if !mb.constraints.isEmpty then
            ["Constraints: " ++ toString mb.constraints.length] else []) ++
          (if !mb.col_stats.isEmpty then
            ["Columns: " ++ toString mb.col_stats.length] else [])
        let warnings :=
          (if !full_table_scans.isEmpty then
            ["⚠️ " ++ toString full_table_scans.length ++ " full table scans"]
          else []) ++
          (if !cartesian_detections.isEmpty then
            ["⚠️ " ++ toString cartesian_detections.length ++
              " cartesian products"] else []) ++
          (if !anomalies.isEmpty then
            ["⚠️ " ++ toString anomalies.length ++ " anomalies"] else [])
        let prompt_parts := prompt_parts ++
          (if !warnings.isEmpty then [pyJoin (" | ") warnings] else [])
        (.ok ⟨filtered_facts, pyJoin (" | ") prompt_parts⟩,
         log0 ++ r0.2 ++ rc.2 ++ [Query.deletePlan stmt_id])

/-! ## Plan visualizer (`server/tools/plan_visualizer.py`) -/

/-- Python `x <= y` on row values (numeric operands; see `valNum`). -/
def pyLeV (a b : Val) : Bool :=
  match toNumQ a, toNumQ b with
  | some x, some y => decide (x ≤ y)
  | _, _ => false

/-- Python `f"{v:,}"` applied to a cardinality value (integer in every
reachable call; see `valNum` for the convention on other values). -/
def pyFmtCommaV (v : Val) : String :=
  match v with
  | .vInt n => pyFmtComma n
  | _ => pyToStr v

/-- Python `"  " * n` (empty for non-positive `n`). -/
def strRepeat (s : String) (n : ℤ) : String :=
  String.mk (List.flatten (List.replicate n.toNat s.data))

/-- `get_operation_warning`: warning and success markers for one step.
`options` is normalized from `None` to the empty string first, exactly
as in the source; `operation` is not. -/
def get_operation_warning (operation options cost cardinality : Val) :
    String :=
  let options := if options = .vNull then Val.vStr "" else options
  let warnings :=
    (if pyEqB operation (.vStr ("TABLE ACCESS")) &&
        pyEqB options (.vStr ("FULL")) && pyGt cost 100 then
      [("⚠️ HIGH-COST FULL SCAN" : String)] else []) ++
    (if pyInV ("INDEX") operation && pyInV ("SKIP SCAN") options then
      [("⚠️ SKIP SCAN" : String)] else []) ++
    (if pyInV ("NESTED LOOPS") operation && cardinality ≠ .vNull &&
        pyGt cardinality 10000 then
      [("⚠️ LARGE NESTED LOOP" : String)] else []) ++
    (if pyInV ("PARTITION") options && pyInV ("ALL") options then
      [("⚠️ ALL PARTITIONS" : String)] else []) ++
    (if pyInV ("CARTESIAN") operation then
      [("🚨 CARTESIAN JOIN" : String)] else []) ++
    (if pyEqB operation (.vStr ("INDEX")) && pyInV ("RANGE SCAN") options &&
        pyLt cost 10 then [("✅" : String)] else []) ++
    (if pyEqB operation (.vStr ("INDEX")) && pyInV ("UNIQUE SCAN") options then
      [("✅" : String)] else [])
  pyJoin (" ") warnings

/-- The `is_last` lookahead of `build_visual_plan`: scan the steps after
index `i` for the first one at depth ≤ the current depth; the current
step is the last sibling unless that step sits at equal depth. -/
def isLastSibling (plan_details : List Row) (i : Nat) (depth : Val) : Bool :=
  match (plan_details.drop (i + 1)).find?
      (fun r => pyLeV (rget r ("depth") (.vInt 0)) depth) with
  | some r => !pyEqB (rget r ("depth") (.vInt 0)) depth
  | none => true

/-- The line rendered by `build_visual_plan` for one non-root step. -/
def stepLine (plan_details : List Row) (show_costs : Bool) (i : Nat)
    (step : Row) : String :=
  let depth := rget step ("depth") (.vInt 0)
  let operation := rget step ("operation") (.vStr "")
  let options := rget step ("options") (.vStr "")
  let object_name := rget step ("object_name") (.vStr "")
  let cost := rget step ("cost") (.vInt 0)
  let cardinality := rget step ("cardinality") (.vInt 0)
  let is_last := isLastSibling plan_details i depth
  let d : ℤ := match depth with | .vInt n => n | _ => 0
  let pfx := if pyEqB depth (.vInt 0) then "" else
    strRepeat ("  ") (d - 1) ++ (if is_last then "└─ " else "├─ ")
  let op_text := pyStrip (pyToStr operation ++ " " ++ pyToStr options)
  let op_text := if pyTruthy object_name then
      op_text ++ ": " ++ pyToStr object_name else op_text
  let op_text := if show_costs then
      op_text ++ " (Cost: " ++ pyToStr cost ++
        (if cardinality ≠ .vNull && pyGt cardinality 0 then
          ", Rows: " ++ pyFmtCommaV cardinality else "") ++ ")"
    else op_text
  let warning := get_operation_warning operation options cost cardinality
  let op_text := if warning ≠ "" then op_text ++ " " ++ warning else op_text
  pfx ++ op_text

/-- `build_visual_plan`: the root line, a blank spacer line, then one
line per non-root step, joined with newlines.  The source gives
`show_costs` the default `True`; callers here pass it explicitly. -/
def build_visual_plan (plan_details : List Row) (show_costs : Bool) :
    String :=
  if plan_details.isEmpty then "No execution plan available"
  else
    let root := plan_details.headD []
    let root_cost := rget root ("cost") (.vInt 0)
    let rootLine := "📊 " ++ pyToStr (rget root ("operation") (.vStr ("QUERY"))) ++
      " (Total Cost: " ++ pyToStr root_cost ++ ")"
    let lines := [rootLine, ""] ++
      ((plan_details.drop 1).enum.map (fun iStep =>
        stepLine plan_details show_costs (iStep.1 + 1) iStep.2))
    pyJoin ("\n") lines

/-- `get_plan_summary`: operation counts over the plan (an empty plan
yields the empty dict, hence the `Option`). -/
def get_plan_summary (plan_details : List Row) : Option PlanSummary :=
  if plan_details.isEmpty then none
  else
    let ops := plan_details.map (fun s =>
      (rget s ("operation") (.vStr ""), rget s ("options") (.vStr "")))
    some
      ⟨plan_details.length,
       (ops.filter (fun p =>
         pyEqB p.1 (.vStr ("TABLE ACCESS")) && pyEqB p.2 (.vStr ("FULL")))).length,
       (ops.filter (fun p => pyInV ("INDEX") p.1)).length,
       (ops.filter (fun p =>
         pyInV ("INDEX") p.1 && pyTruthy p.2 && pyInV ("SKIP SCAN") p.2)).length,
       (ops.filter (fun p => pyInV ("NESTED LOOPS") p.1)).length,
       (ops.filter (fun p => pyInV ("HASH JOIN") p.1)).length,
       (ops.filter (fun p =>
         pyTruthy p.2 && pyInV ("PARTITION") p.2 && pyInV ("ALL") p.2)).length⟩

/-! ## Entry point (`server/tools/oracle_analysis.py`) -/

/-- The dict returned by `analyze_oracle_query`.  Error returns carry
`error` (and, from the catch-all handler, `trace`) next to empty
`facts`; the success shape carries `facts` and `prompt` only. -/
structure AnalyzeResult where
  error : Option String := none
  trace : Option String := none
  facts : FilteredFacts := {}
  prompt : String := ""
  deriving DecidableEq

/-- Ambient state of one `analyze_oracle_query` invocation:
the outcome of `oracle_connector.connect(db_name)` (an exception there
is caught by the catch-all handler), the list returned by
`get_recent_history` (that function catches its own errors and returns
`[]`), the global config, and the wall-clock values. -/
structure AnalyzeEnv where
  connect : Except String Cursor
  history : List HistEntry
  cfg : Config
  now : ℚ
  elapsed : ℚ

/-- The parameter list of `run_full_oracle_analysis` in the source:
`def run_full_oracle_analysis(cur, sql_text)`. -/
def run_full_params : List String := ["cur", "sql_text"]

/-- Python call semantics for
`run_collector(cur, sql_text, depth=depth)`: the two positional
arguments bind to `cur` and `sql_text`; a keyword argument whose name is
not in the parameter list raises `TypeError` before the body runs (so no
query is issued). -/
def call_run_collector (cfg : Config) (now elapsed : ℚ) (cur : Cursor)
    (sql_text : String) (kwargs : List String) :
    Except String CollectorResult × List Query :=
  if kwargs.all (fun k => k ∈ run_full_params) then
    run_full_oracle_analysis cfg now elapsed cur sql_text
  else
    (.error ("TypeError: run_full_oracle_analysis() got an unexpected keyword argument " ++
      qs ("depth")), [])

/-- The catch-all `except Exception` result of `analyze_oracle_query`
(`trace` abstracts the traceback text to the triggering message). -/
def internalError (e : String) : AnalyzeResult :=
  { error := some ("Internal error: " ++ e), trace := some e
    facts := {}, prompt := "" }

/-- The historical-context dict stored for a first execution. -/
def firstExecutionContext : HistoryVerdict :=
  { status := "new_query", message := "First execution - establishing baseline" }

/-- `analyze_oracle_query(db_name, sql_text, depth)`: depth validation,
empty-SQL check, connection, (bypassed) SQL validation, length-driven
preset adjustment, history lookup, the collector call — which always
raises `TypeError` because `run_full_oracle_analysis` does not accept
the `depth` keyword — and the post-processing of the collector result
(reached only if that call were to succeed).  The `store_history` and
`_update_regression_tracking` writes are external side effects with no
influence on the returned dict and are not modelled. -/
def analyze_oracle_query (env : AnalyzeEnv) (_db_name sql_text depth : String) :
    AnalyzeResult :=
  if depth ≠ "plan_only" && depth ≠ "standard" then
    { error := some ("Invalid depth parameter: " ++ qs depth)
      facts := {}
      prompt := "depth must be " ++ qs ("plan_only") ++ " or " ++ qs ("standard") }
  else if !pyTruthy (.vStr sql_text) || !pyTruthy (.vStr (pyStrip sql_text)) then
    { error := some ("sql_text is empty"), facts := {}, prompt := "" }
  else
    match env.connect with
    | .error e => internalError e
    | .ok cur =>
      let v := validate_sql cur sql_text
      if v.2.2 then
        { error := some ("SECURITY BLOCK: " ++ (v.2.1.getD ("None")))
          facts := {}
          prompt := "🚨 SECURITY: This query was BLOCKED for safety reasons.\n\nReason: " ++
            (v.2.1.getD ("None")) ++
            "\n\nThis tool only allows SELECT queries for analysis.\nThe following operations are PROHIBITED:\n- Data modification (INSERT, UPDATE, DELETE, MERGE)\n- Schema changes (CREATE, DROP, ALTER, TRUNCATE)\n- Permission changes (GRANT, REVOKE)\n- System operations (SHUTDOWN, STARTUP)\n- Procedure execution (EXECUTE, CALL)\n- PL/SQL blocks (BEGIN, DECLARE)\n\nPlease provide a SELECT query only." }
      else if !v.1 then
        { error := some ("Invalid SQL query: " ++ (v.2.1.getD ("None")))
          facts := {}
          prompt := "The SQL query is INVALID and cannot be analyzed.\n\nError: " ++
            (v.2.1.getD ("None")) ++
            "\n\nSuggestions:\n1. Check that all table and column names are spelled correctly\n2. Verify table aliases match the table names\n3. Ensure all referenced columns exist in the tables\n4. Test the query in SQL*Plus or another SQL client first\n\nYou can use this query to find correct column names:\nSELECT column_name FROM all_tab_columns WHERE owner=" ++
            qs ("SCHEMA") ++ " AND table_name=" ++ qs ("TABLE") ++ ";" }
      else
        let query_length := sql_text.length
        let original_preset := env.cfg.output_preset
        let adjusted_preset :=
          if 50000 ≤ query_length then "minimal"
          else if 10000 ≤ query_length && original_preset = "standard" then
            "compact"
          else original_preset
        let preset_adjusted := adjusted_preset ≠ original_preset
        let history := if depth = "standard" then env.history else []
        let call := call_run_collector ⟨adjusted_preset⟩ env.now env.elapsed
          cur sql_text [("depth")]
        match call.1 with
        | .error e => internalError e
        | .ok result =>
          let facts := result.facts
          let plan_details := facts.plan_details.getD []
          let facts := if !plan_details.isEmpty then
              { facts with
                visual_plan := some (build_visual_plan plan_details true)
                plan_summary := some (get_plan_summary plan_details) }
            else facts
          let withHist :=
            if !history.isEmpty then
              let ctx := compare_with_history history
                ⟨facts.plan_details.getD [], facts.table_stats.getD [], "", ""⟩
              ({ facts with
                  historical_context := some ctx
                  history_count := some history.length },
               "🕒 IMPORTANT: This query pattern has been executed " ++
                 toString history.length ++
                 " time(s) before. START your response with the historical context section using facts[" ++
                 qs ("historical_context") ++ "]. " ++ result.prompt)
            else
              ({ facts with historical_context := some firstExecutionContext },
               "🆕 This is the first execution of this query pattern. " ++
                 result.prompt)
          let facts := withHist.1
          let prompt_parts := [withHist.2] ++
            (if depth = "plan_only" then
              ["\n📖 PLAN-ONLY MODE: This is a fast execution plan analysis without metadata collection. Use depth=" ++
                qs ("standard") ++
                " for full optimization analysis with table/index/column statistics."]
            else []) ++
            (if preset_adjusted then
              ["\n⚙️ NOTE: Large query detected (" ++
                pyFmtComma query_length ++
                " characters). Analysis preset automatically adjusted to " ++
                qs adjusted_preset ++ " (from " ++ qs original_preset ++
                ") to optimize token usage. Full SQL preserved for accurate optimization recommendations."]
            else []) ++
            (match facts.query_intent with
             | some qi =>
               ["\n📋 Query Pattern: " ++ qs qi.qi_type ++ " (complexity: " ++
                 qi.complexity ++ "). "]
             | none => []) ++
            (if !(facts.full_table_scans.getD []).isEmpty then
              ["\n🔍 Detected: " ++
                toString (facts.full_table_scans.getD []).length ++
                " full table scan(s). See facts[" ++ qs ("full_table_scans") ++
                "] for details."]
            else []) ++
            (if !(facts.cartesian_detections.getD []).isEmpty then
              ["\n🔍 Detected: " ++
                toString (facts.cartesian_detections.getD []).length ++
                " potential Cartesian product(s). See facts[" ++
                qs ("cartesian_detections") ++ "] for details."]
            else []) ++
            (if 1 < ((facts.summary.map (fun s => s.tables)).getD 0 : Nat) then
              ["\n💡 Note: For business context analysis, the " ++
                qs ("explain_business_logic") ++
                " tool can analyze table relationships and infer business domains."]
            else [])
          { error := none, trace := none, facts := facts
            prompt := pyJoin ("") prompt_parts }

/-! ## Concrete fixtures -/

/-- A cursor on which every query succeeds and yields no rows. -/
def okCursor : Cursor :=
  { planTableCheckRaw := .ok ()
    createPlanTableRaw := .ok ()
    deleteRaw := .ok ()
    explainExecRaw := .ok ()
    xplanDisplayRaw := .ok [("Plan hash value: 1")]
    planObjectsRaw := .ok []
    planDetailsRaw := .ok []
    tableStatsRaw := .ok []
    indexStatsRaw := .ok []
    indexColsRaw := .ok []
    partTablesRaw := .ok []
    partKeysRaw := .ok []
    colStatsRaw := .ok []
    constraintsRaw := .ok []
    optimizerRaw := .ok []
    dbaSegmentsRaw := .ok []
    userSegmentsRaw := .ok []
    rownumProbeRaw := .ok () }

/-- The field projection applied by the minimal preset to one table
entry. -/
def minimalProj (t : Row) : Row := t.filter (fun kv => kv.1 ∈ minimalTableKeys)

/-! ## Scenario A fixtures (full scan on ORDERS, no index on STATUS) -/

/-- The scenario SQL `SELECT * FROM orders WHERE status = 'OPEN'`. -/
def scenarioASql : String :=
  "SELECT * FROM orders WHERE status = " ++ qs ("OPEN")

/-- The two plan rows of scenario A: the root statement and a
`TABLE ACCESS FULL` on `HR.ORDERS`. -/
def scenarioAPlan : List Row :=
  [[(("id"), .vInt 0), (("operation"), .vStr ("SELECT STATEMENT")),
    (("cost"), .vInt 500)],
   [(("id"), .vInt 1), (("operation"), .vStr ("TABLE ACCESS")),
    (("options"), .vStr ("FULL")), (("object_owner"), .vStr ("HR")),
    (("object_name"), .vStr ("ORDERS")), (("cost"), .vInt 500),
    (("cardinality"), .vInt 50000)]]

/-- Table statistics of scenario A: ORDERS with 100000 rows. -/
def scenarioATableStats : List Row :=
  [[(("owner"), .vStr ("HR")), (("table_name"), .vStr ("ORDERS")),
    (("num_rows"), .vInt 100000)]]

/-- Column statistics of scenario A: the STATUS column of ORDERS. -/
def scenarioAColStats : List Row :=
  [[(("owner"), .vStr ("HR")), (("table_name"), .vStr ("ORDERS")),
    (("column_name"), .vStr ("STATUS"))]]

/-- A cursor serving scenario A; there is no index on ORDERS, so the
index-statistics query yields no rows. -/
def scenarioACursor : Cursor :=
  { okCursor with
    planObjectsRaw := .ok
      [(("HR"), ("ORDERS"), .vStr ("TABLE"), .vStr ("TABLE ACCESS"),
        .vStr ("FULL"))]
    planDetailsRaw := .ok scenarioAPlan
    tableStatsRaw := .ok scenarioATableStats
    colStatsRaw := .ok scenarioAColStats }

/-- An environment whose connection opens onto the benign cursor. -/
def plainEnv : AnalyzeEnv :=
  ⟨Except.ok okCursor, [], ⟨"standard"⟩, mkRat 26 5, 0⟩

/-- A cursor whose `all_tables` statistics query raises. -/
def tableStatsFailCursor : Cursor :=
  { okCursor with
    planObjectsRaw := .ok
      [(("HR"), ("EMP"), .vStr ("TABLE"), .vStr ("TABLE ACCESS"),
        .vStr ("FULL"))]
    tableStatsRaw := .error ("ORA-00942: table or view does not exist") }

/-! ## Scope of the metadata table lookups -/

/-- The bind payload of a table-statistics query; `none` for every other
query kind. -/
def tableStatsArg : Query → Option (List (String × String))
  | Query.tableStats t => some t
  | _ => none

/-- A connection on which `EXPLAIN PLAN` raises, so that no plan rows
exist: plan acquisition fails and the plan tree comes back empty. -/
def planFailCursor : Cursor :=
  { okCursor with explainExecRaw := .error ("ORA-00904: invalid identifier") }

/-! ## Rendered-text line structure (plan visualizer) -/

/-- No character of the string is a newline (the join separator of
`build_visual_plan`). -/
def noNl (s : String) : Bool := s.data.all (fun c => c ≠ '\n')

/-- Does a line hold any non-whitespace character? -/
def nonBlankChars (l : List Char) : Bool := l.any (fun c => !isPySpace c)

/-- `nonBlankChars` on a whole string. -/
def nonBlankS (s : String) : Bool := nonBlankChars s.data

/-- Non-blank lines of a rendered text: split on newlines, keep the
lines holding a non-whitespace character, count. -/
def countNonBlankLines (l : List Char) : Nat :=
  ((l.splitOn '\n').filter nonBlankChars).length

/-- The value shapes under which one plan step renders faithfully on a
single line: text fields are newline-free strings (`options` and
`object_name` may also be `NULL`), `cost` is an integer and
`cardinality` an integer or `NULL`. -/
def stepRenderOk (r : Row) : Bool :=
  (match rget r ("operation") (.vStr "") with
   | .vStr s => noNl s
   | _ => false) &&
  (match rget r ("options") (.vStr "") with
   | .vStr s => noNl s
   | .vNull => true
   | _ => false) &&
  (match rget r ("object_name") (.vStr "") with
   | .vStr s => noNl s
   | .vNull => true
   | _ => false) &&
  (match rget r ("cost") (.vInt 0) with
   | .vInt _ => true
   | _ => false) &&
  (match rget r ("cardinality") (.vInt 0) with
   | .vInt _ => true
   | .vNull => true
   | _ => false)

/-- A three-step plan with nested depths, used to instantiate the
line-count theorem. -/
def vpPlan : List Row :=
  [[(("id"), .vInt 0), (("operation"), .vStr ("SELECT STATEMENT")),
    (("cost"), .vInt 42), (("depth"), .vInt 0)],
   [(("id"), .vInt 1), (("operation"), .vStr ("HASH JOIN")),
    (("cost"), .vInt 40), (("depth"), .vInt 1),
    (("cardinality"), .vInt 20000)],
   [(("id"), .vInt 2), (("operation"), .vStr ("TABLE ACCESS")),
    (("options"), .vStr ("FULL")), (("object_name"), .vStr ("EMP")),
    (("cost"), .vInt 20), (("depth"), .vInt 2),
    (("cardinality"), .vInt 10000)]]

/-! ## Statement-identifier collisions -/

/-- One step of parsing a decimal digit string. -/
def decStep (a : ℕ) (c : Char) : ℕ := 10 * a + (c.toNat - 48)

/-- Parse a decimal digit string back to its value. -/
def decDigits (l : List Char) : ℕ := l.foldl decStep 0

theorem qAdd_eq (a b : ℚ) : qAdd a b = a + b := by
  have ha : ((a.den : ℚ)) ≠ 0 := by exact_mod_cast a.den_nz
  have hb : ((b.den : ℚ)) ≠ 0 := by exact_mod_cast b.den_nz
  rw [qAdd, Rat.divInt_eq_div]
  push_cast
  conv_rhs => rw [← Rat.num_div_den a, ← Rat.num_div_den b]
  field_simp
  try ring

theorem qSub_eq (a b : ℚ) : qSub a b = a - b := by
  have ha : ((a.den : ℚ)) ≠ 0 := by exact_mod_cast a.den_nz
  have hb : ((b.den : ℚ)) ≠ 0 := by exact_mod_cast b.den_nz
  rw [qSub, Rat.divInt_eq_div]
  push_cast
  conv_rhs => rw [← Rat.num_div_den a, ← Rat.num_div_den b]
  field_simp
  try ring

theorem qMul_eq (a b : ℚ) : qMul a b = a * b := by
  have ha : ((a.den : ℚ)) ≠ 0 := by exact_mod_cast a.den_nz
  have hb : ((b.den : ℚ)) ≠ 0 := by exact_mod_cast b.den_nz
  rw [qMul, Rat.divInt_eq_div]
  push_cast
  conv_rhs => rw [← Rat.num_div_den a, ← Rat.num_div_den b]
  field_simp

theorem qDiv_eq (a b : ℚ) : qDiv a b = a / b := by
  have ha : ((a.den : ℚ)) ≠ 0 := by exact_mod_cast a.den_nz
  rcases eq_or_ne b 0 with rb | rb
  · subst rb
    simp [qDiv, Rat.divInt_eq_div]
  · have hb : ((b.den : ℚ)) ≠ 0 := by exact_mod_cast b.den_nz
    have hbn : ((b.num : ℚ)) ≠ 0 := by
      exact_mod_cast Rat.num_ne_zero.mpr rb
    rw [qDiv, Rat.divInt_eq_div]
    push_cast
    conv_rhs => rw [← Rat.num_div_den a, ← Rat.num_div_den b]
    rw [div_div_div_eq]

theorem qNeg_eq (a : ℚ) : qNeg a = -a := by
  rw [qNeg, Rat.divInt_eq_div]
  push_cast
  rw [neg_div, Rat.num_div_den]

theorem qAbs_eq (a : ℚ) : qAbs a = |a| := by
  rw [qAbs]
  split
  · rw [qNeg_eq, abs_of_neg]
    assumption
  · rw [abs_of_nonneg]
    exact le_of_not_lt (by assumption)

/-- C1: the spec says a statement opening with a mutating or
administrative keyword is classified dangerous by `validate_sql` and no
execution plan is requested for it.  The code contradicts this: the
`TEMP` bypass makes `validate_sql` report `DROP TABLE EMP` valid and not
dangerous, `explain_plan` then issues the `EXPLAIN PLAN` statement for
it, and the full pipeline does the same — while the dead validation body
below the bypass would indeed have flagged the statement dangerous. -/
theorem validate_sql_bypass_lets_drop_table_reach_explain_plan :
    validate_sql okCursor ("DROP TABLE EMP") = (true, none, false) ∧
    (Query.explainExec ("LLM_5") ("DROP TABLE EMP")) ∈
      (explain_plan okCursor ("DROP TABLE EMP") ("LLM_5")).2 ∧
    (Query.explainExec ("LLM_5") ("DROP TABLE EMP")) ∈
      (run_full_oracle_analysis ⟨"standard"⟩ (mkRat 26 5) 0 okCursor
        ("DROP TABLE EMP")).2 ∧
    validate_sql_checks okCursor ("DROP TABLE EMP") =
      (false, some ("Only SELECT queries are allowed. Found: DROP"), true) := by
  refine ⟨rfl, ?_, ?_, ?_⟩ <;> decide

/-- C7: for one full fact set and one pair of plan-object sets, the
minimal output is a subset of the compact output (same object filter on
table entries, each entry projected to a sub-dict), the compact output
is a subset of the standard output (each present list a sublist of the
corresponding full list, the remaining fields passed through equal), and
the structured plan is passed through unfiltered and identical under all
three presets. -/
theorem apply_output_preset_monotone (facts : Facts)
    (pt pi : List (String × String)) :
    ((apply_output_preset facts ("standard") pt pi).plan_details =
        some facts.plan_details ∧
      (apply_output_preset facts ("compact") pt pi).plan_details =
        some facts.plan_details ∧
      (apply_output_preset facts ("minimal") pt pi).plan_details =
        some facts.plan_details) ∧
    ((apply_output_preset facts ("compact") pt pi).table_stats =
        some (facts.table_stats.filter (tblInPlan pt)) ∧
      (apply_output_preset facts ("minimal") pt pi).table_stats =
        some ((facts.table_stats.filter (tblInPlan pt)).map minimalProj) ∧
      (∀ t : Row, (minimalProj t).Sublist t) ∧
      (apply_output_preset facts ("minimal") pt pi).sql_text =
        (apply_output_preset facts ("compact") pt pi).sql_text ∧
      (apply_output_preset facts ("minimal") pt pi).summary =
        (apply_output_preset facts ("compact") pt pi).summary) ∧
    ((facts.table_stats.filter (tblInPlan pt)).Sublist facts.table_stats ∧
      (apply_output_preset facts ("standard") pt pi).table_stats =
        some facts.table_stats ∧
      (apply_output_preset facts ("compact") pt pi).index_stats =
        some (facts.index_stats.filter (fun i =>
          vpairMem (rget i ("owner") .vNull) (rget i ("index_name") .vNull)
            pi)) ∧
      (facts.index_stats.filter (fun i =>
        vpairMem (rget i ("owner") .vNull) (rget i ("index_name") .vNull)
          pi)).Sublist facts.index_stats ∧
      (apply_output_preset facts ("standard") pt pi).index_stats =
        some facts.index_stats ∧
      (apply_output_preset facts ("compact") pt pi).index_columns =
        some (facts.index_columns.filter (fun ic =>
          vpairMem (icGet ic ("table_owner")) (icGet ic ("index_name")) pi)) ∧
      (facts.index_columns.filter (fun ic =>
        vpairMem (icGet ic ("table_owner")) (icGet ic ("index_name"))
          pi)).Sublist facts.index_columns ∧
      (apply_output_preset facts ("standard") pt pi).index_columns =
        some facts.index_columns ∧
      (facts.segment_sizes.filter (fun sg =>
        vpairMem (rget sg ("owner") .vNull) (rget sg ("segment_name") .vNull)
          pt ||
        vpairMem (rget sg ("owner") .vNull) (rget sg ("segment_name") .vNull)
          pi)).Sublist facts.segment_sizes ∧
      (apply_output_preset facts ("compact") pt pi).segment_sizes =
        some (facts.segment_sizes.filter (fun sg =>
          vpairMem (rget sg ("owner") .vNull) (rget sg ("segment_name") .vNull)
            pt ||
          vpairMem (rget sg ("owner") .vNull) (rget sg ("segment_name") .vNull)
            pi)) ∧
      (apply_output_preset facts ("standard") pt pi).segment_sizes =
        some facts.segment_sizes ∧
      (apply_output_preset facts ("compact") pt pi).column_stats =
        some facts.column_stats ∧
      (apply_output_preset facts ("standard") pt pi).column_stats =
        some facts.column_stats ∧
      (apply_output_preset facts ("compact") pt pi).constraints =
        some facts.constraints ∧
      (apply_output_preset facts ("standard") pt pi).constraints =
        some facts.constraints ∧
      (apply_output_preset facts ("compact") pt pi).optimizer_parameters =
        some facts.optimizer_parameters ∧
      (apply_output_preset facts ("standard") pt pi).optimizer_parameters =
        some facts.optimizer_parameters ∧
      (apply_output_preset facts ("compact") pt pi).partition_tables =
        some facts.partition_tables ∧
      (apply_output_preset facts ("standard") pt pi).partition_tables =
        some facts.partition_tables ∧
      (apply_output_preset facts ("compact") pt pi).sql_text =
        (apply_output_preset facts ("standard") pt pi).sql_text ∧
      (apply_output_preset facts ("compact") pt pi).summary =
        (apply_output_preset facts ("standard") pt pi).summary) := by
  refine ⟨⟨rfl, rfl, rfl⟩,
    ⟨rfl, rfl, fun t => List.filter_sublist t, rfl, rfl⟩,
    List.filter_sublist _, rfl, rfl, List.filter_sublist _, rfl, rfl,
    List.filter_sublist _, rfl, List.filter_sublist _, rfl, rfl, rfl, rfl,
    rfl, rfl, rfl, rfl, rfl, rfl, rfl, rfl⟩

/-- C6: the detector itself produces exactly the finding the spec
scenario demands — one `FullTableScan` on `HR.ORDERS` with 100000 rows,
an empty `available_indexes` list and `STATUS` among the WHERE-clause
columns — but the pipeline guard
`detect_full_table_scans(...) if index_stats else []` skips the detector
precisely because no index exists, so the analysis run emits zero
full-scan findings for this scenario, contradicting the claim. -/
theorem scenarioA_detector_finds_but_pipeline_drops :
    detect_full_table_scans scenarioAPlan scenarioATableStats []
        scenarioAColStats scenarioASql =
      [⟨"FULL TABLE SCAN", "HR.ORDERS", .vStr ("HR"), .vStr ("ORDERS"),
        .vInt 100000, .vInt 500, .vInt 50000, [], 0, [.vStr ("STATUS")]⟩] ∧
    (run_full_oracle_analysis ⟨"standard"⟩ (mkRat 26 5) 0 scenarioACursor
        scenarioASql).1.map (fun r => r.facts.full_table_scans) =
      .ok (some []) := by
  exact ⟨by decide, rfl⟩

/-- C9 counterexample: two pipeline invocations with distinct start
times inside the same whole second (26/5 and 29/5 seconds) issue
byte-identical query sequences — in particular the same plan-artifact
statement identifier `LLM_5` — refuting the claim that identifiers are
always distinct. -/
theorem same_second_invocations_collide :
    (mkRat 26 5 : ℚ) ≠ mkRat 29 5 ∧
    genStmtId (mkRat 26 5) = genStmtId (mkRat 29 5) ∧
    genStmtId (mkRat 26 5) = "LLM_5" ∧
    (run_full_oracle_analysis ⟨"standard"⟩ (mkRat 26 5) 0 okCursor
        ("SELECT * FROM HR.EMP")).2 =
      (run_full_oracle_analysis ⟨"standard"⟩ (mkRat 29 5) 0 okCursor
        ("SELECT * FROM HR.EMP")).2 := by
  refine ⟨by decide, rfl, rfl, rfl⟩

/-- C2: with a valid depth argument and non-empty SQL, every invocation
of `analyze_oracle_query` returns an error result with empty facts; and
whenever the connection opens and the SQL is not blank, the error is
precisely the `TypeError` produced by passing the `depth` keyword to
`run_full_oracle_analysis`, whose signature `(cur, sql_text)` does not
accept it, converted by the catch-all handler. -/
theorem analyze_oracle_query_always_errors (env : AnalyzeEnv)
    (db sql depth : String)
    (hd : depth = "plan_only" ∨ depth = "standard") (hs : sql ≠ "") :
    ((analyze_oracle_query env db sql depth).error.isSome ∧
      (analyze_oracle_query env db sql depth).facts = {}) ∧
    (∀ cur, env.connect = Except.ok cur → pyStrip sql ≠ "" →
      (analyze_oracle_query env db sql depth).error =
        some ("Internal error: TypeError: run_full_oracle_analysis() got an unexpected keyword argument " ++
          qs ("depth"))) := by
  have hd1 : (depth ≠ "plan_only" && depth ≠ "standard") = false := by
    rcases hd with rfl | rfl <;> simp
  unfold analyze_oracle_query
  rw [hd1]
  simp only [Bool.false_eq_true, if_false]
  by_cases hblank : (!pyTruthy (.vStr sql) || !pyTruthy (.vStr (pyStrip sql))) = true
  · rw [if_pos hblank]
    refine ⟨⟨rfl, rfl⟩, ?_⟩
    intro cur _ hstrip
    exfalso
    have h1 : pyTruthy (.vStr sql) = true := by
      simp [pyTruthy]
      exact hs
    have h2 : pyTruthy (.vStr (pyStrip sql)) = true := by
      simp [pyTruthy]
      exact hstrip
    rw [h1, h2] at hblank
    simp at hblank
  · rw [if_neg hblank]
    rcases hconn : env.connect with e | cur
    · exact ⟨⟨rfl, rfl⟩, by intro cur hcur; simp at hcur⟩
    · refine ⟨⟨rfl, rfl⟩, ?_⟩
      intro cur2 _ _
      rfl

/-- Witness for C2 at a concrete invocation. -/
theorem analyze_oracle_query_always_errors_witness :
    (analyze_oracle_query plainEnv ("db1") ("SELECT 1 FROM DUAL")
        ("standard")).error.isSome ∧
    (analyze_oracle_query plainEnv ("db1") ("SELECT 1 FROM DUAL")
        ("standard")).facts = {} :=
  (analyze_oracle_query_always_errors plainEnv ("db1") ("SELECT 1 FROM DUAL")
    ("standard") (Or.inr rfl) (by decide)).1

/-- C3: two consecutive analyses of one fingerprint/database pair whose
second run has a different plan hash and a root cost of 60% of the
stored cost (a 40% drop) are classified `plan_changed` with
`improved = True` and `cost_change_pct = -40.0`. -/
theorem compare_plan_changed_improved_on_cost_drop
    (ph_old ph_new : String) (c_old c_new : ℤ)
    (ts : List (String × Val)) (ops : List String) (hist : List HistEntry)
    (row : Row) (rows curTs : List Row) (fp db : String)
    (hne : ph_new ≠ ph_old)
    (hhash : rget row ("plan_hash_value") (.vStr ("unknown")) = .vStr ph_new)
    (hcost : rget row ("cost") (.vInt 0) = .vInt c_new)
    (hpos : 0 < c_old)
    (hdrop : 10 * c_new = 6 * c_old) :
    (compare_with_history (⟨.vStr ph_old, c_old, ts, ops⟩ :: hist)
        ⟨row :: rows, curTs, fp, db⟩).status = "plan_changed" ∧
    (compare_with_history (⟨.vStr ph_old, c_old, ts, ops⟩ :: hist)
        ⟨row :: rows, curTs, fp, db⟩).improved = some true ∧
    (compare_with_history (⟨.vStr ph_old, c_old, ts, ops⟩ :: hist)
        ⟨row :: rows, curTs, fp, db⟩).cost_change_pct = some (-40) := by
  have hcpos : 0 < c_new := by omega
  have hlt : c_new < c_old := by omega
  have e1 : pyEqB (.vStr ph_old) (.vStr ph_new) = false := by
    simp [pyEqB, toNumQ]
    exact fun h => hne h.symm
  have e2 : pyEqB (.vInt c_new) (.vInt 0) = false := by
    simp [pyEqB, toNumQ]
    exact_mod_cast hcpos.ne'
  have e4 : pyLt (.vInt c_new) ((c_old : ℤ) : ℚ) = true := by
    simp [pyLt, toNumQ]
    exact_mod_cast hlt
  have e5 : qMul (qDiv (qSub (valNum (.vInt c_new)) ((c_old : ℤ) : ℚ))
      ((c_old : ℤ) : ℚ)) 100 = -40 := by
    rw [qMul_eq, qDiv_eq, qSub_eq]
    have h0 : ((c_old : ℤ) : ℚ) ≠ 0 := by
      exact_mod_cast hpos.ne'
    have h10 : (10 : ℚ) * (c_new : ℚ) = 6 * (c_old : ℚ) := by
      exact_mod_cast hdrop
    field_simp [valNum, toNumQ]
    linarith
  have e6 : pyRound (-40 : ℚ) 1 = -40 := by decide
  have e3 : decide (c_old = 0) = false := by
    simp
    omega
  simp only [compare_with_history, e1, Bool.false_eq_true, if_false,
    hhash, hcost, e2, e5, e6, e4, e3, Bool.false_or]
  exact ⟨trivial, trivial, trivial⟩

/-- Witness for C3 at a concrete pair of runs (stored cost 100, current
cost 60, differing plan hashes). -/
theorem compare_plan_changed_witness :
    (compare_with_history [⟨.vStr ("h1"), 100, [], []⟩]
        ⟨[[(("plan_hash_value"), .vStr ("h2")), (("cost"), .vInt 60)]],
          [], "", ""⟩).status = "plan_changed" ∧
    (compare_with_history [⟨.vStr ("h1"), 100, [], []⟩]
        ⟨[[(("plan_hash_value"), .vStr ("h2")), (("cost"), .vInt 60)]],
          [], "", ""⟩).improved = some true ∧
    (compare_with_history [⟨.vStr ("h1"), 100, [], []⟩]
        ⟨[[(("plan_hash_value"), .vStr ("h2")), (("cost"), .vInt 60)]],
          [], "", ""⟩).cost_change_pct = some (-40) :=
  compare_plan_changed_improved_on_cost_drop ("h1") ("h2") 100 60 [] [] []
    [(("plan_hash_value"), .vStr ("h2")), (("cost"), .vInt 60)] [] [] ("") ("")
    (by decide) (by decide) (by decide) (by decide) (by decide)

/-- C4 counterexample: a failing table-statistics catalog query does
not degrade to an empty category — it aborts the whole pipeline run
(`get_table_stats` has no exception handling). -/
theorem table_stats_error_aborts_pipeline :
    (run_full_oracle_analysis ⟨"standard"⟩ (mkRat 26 5) 0
        tableStatsFailCursor ("SELECT * FROM HR.EMP")).1 =
      .error ("ORA-00942: table or view does not exist") := rfl

/-- C4 amended: only the optimizer-parameter and physical-size
categories degrade to an empty result when their catalog query raises —
with every other category answering, a run whose optimizer and segment
queries all fail still completes, carrying empty lists for exactly those
two categories — while an error in any of the six unwrapped categories
(table statistics, index statistics, index columns, partitioning —
either of its two queries —, column statistics, constraints) propagates
and aborts the run. -/
theorem metadata_error_handling_by_category
    (e1 e2 e3 e4 e5 e6 e7 e8 e9 e10 : String)
    (ts is ic ptr pk cst cr : List Row) (now elapsed : ℚ) :
    ((run_full_oracle_analysis ⟨"standard"⟩ now elapsed
        { okCursor with
          planObjectsRaw := .ok
            [(("HR"), ("EMP"), .vStr ("TABLE"), .vNull, .vNull)]
          tableStatsRaw := .ok ts
          indexStatsRaw := .ok is
          indexColsRaw := .ok ic
          partTablesRaw := .ok ptr
          partKeysRaw := .ok pk
          colStatsRaw := .ok cst
          constraintsRaw := .ok cr
          optimizerRaw := .error e1
          dbaSegmentsRaw := .error e2
          userSegmentsRaw := .error e3 }
        ("SELECT * FROM HR.EMP")).1.map
      (fun r => (r.facts.optimizer_parameters, r.facts.segment_sizes)) =
      .ok (some [], some [])) ∧
    ((run_full_oracle_analysis ⟨"standard"⟩ now elapsed
        { okCursor with
          planObjectsRaw := .ok
            [(("HR"), ("EMP"), .vStr ("TABLE"), .vNull, .vNull)]
          tableStatsRaw := .error e4 }
        ("SELECT * FROM HR.EMP")).1 = .error e4) ∧
    ((run_full_oracle_analysis ⟨"standard"⟩ now elapsed
        { okCursor with
          planObjectsRaw := .ok
            [(("HR"), ("EMP"), .vStr ("TABLE"), .vNull, .vNull)]
          indexStatsRaw := .error e5 }
        ("SELECT * FROM HR.EMP")).1 = .error e5) ∧
    ((run_full_oracle_analysis ⟨"standard"⟩ now elapsed
        { okCursor with
          planObjectsRaw := .ok
            [(("HR"), ("EMP"), .vStr ("TABLE"), .vNull, .vNull)]
          indexColsRaw := .error e6 }
        ("SELECT * FROM HR.EMP")).1 = .error e6) ∧
    ((run_full_oracle_analysis ⟨"standard"⟩ now elapsed
        { okCursor with
          planObjectsRaw := .ok
            [(("HR"), ("EMP"), .vStr ("TABLE"), .vNull, .vNull)]
          partTablesRaw := .error e7 }
        ("SELECT * FROM HR.EMP")).1 = .error e7) ∧
    ((run_full_oracle_analysis ⟨"standard"⟩ now elapsed
        { okCursor with
          planObjectsRaw := .ok
            [(("HR"), ("EMP"), .vStr ("TABLE"), .vNull, .vNull)]
          partKeysRaw := .error e8 }
        ("SELECT * FROM HR.EMP")).1 = .error e8) ∧
    ((run_full_oracle_analysis ⟨"standard"⟩ now elapsed
        { okCursor with
          planObjectsRaw := .ok
            [(("HR"), ("EMP"), .vStr ("TABLE"), .vNull, .vNull)]
          colStatsRaw := .error e9 }
        ("SELECT * FROM HR.EMP")).1 = .error e9) ∧
    ((run_full_oracle_analysis ⟨"standard"⟩ now elapsed
        { okCursor with
          planObjectsRaw := .ok
            [(("HR"), ("EMP"), .vStr ("TABLE"), .vNull, .vNull)]
          constraintsRaw := .error e10 }
        ("SELECT * FROM HR.EMP")).1 = .error e10) := by
  exact ⟨rfl, rfl, rfl, rfl, rfl, rfl, rfl, rfl⟩

lemma tsArg_explain_plan (cur : Cursor) (s i : String) :
    ((explain_plan cur s i).2).filterMap tableStatsArg = [] := by
  rcases h1 : cur.planTableCheckRaw with e1 | u1 <;>
    rcases h2 : cur.deleteRaw with e2 | u2 <;>
      rcases h3 : cur.explainExecRaw with e3 | u3 <;>
        rcases h4 : cur.xplanDisplayRaw with e4 | l4 <;>
          simp [explain_plan, h1, h2, h3, h4, validate_sql, tableStatsArg]

lemma tsArg_plan_objects (cur : Cursor) (i : String) :
    ((get_plan_objects cur i).2).filterMap tableStatsArg = [] := by
  rcases h : cur.planObjectsRaw with e | rows <;>
    simp [get_plan_objects, h, tableStatsArg]

lemma tsArg_plan_details (cur : Cursor) (i : String) :
    ((get_plan_details cur i).2).filterMap tableStatsArg = [] := by
  rcases h : cur.planDetailsRaw with e | rows <;>
    simp [get_plan_details, h, tableStatsArg]

/-- The table-statistics getter is the one query site whose bind payload
is the merged table list: it asks once when the list is non-empty and
not at all when it is empty. -/
lemma tsArg_table_stats (cur : Cursor) (t : List (String × String)) :
    ((get_table_stats cur t).2).filterMap tableStatsArg =
      if t.isEmpty then [] else [t] := by
  unfold get_table_stats
  split <;> rename_i h <;> simp [h, tableStatsArg]

lemma tsArg_index_stats (cur : Cursor) (t : List (String × String)) :
    ((get_index_stats cur t).2).filterMap tableStatsArg = [] := by
  unfold get_index_stats
  split <;> simp [tableStatsArg]

lemma tsArg_index_cols (cur : Cursor) (t : List (String × String)) :
    ((get_index_columns cur t).2).filterMap tableStatsArg = [] := by
  unfold get_index_columns
  split
  · rfl
  · rcases h : cur.indexColsRaw with e | rows <;> simp [h, tableStatsArg]

lemma tsArg_partition (cur : Cursor) (t : List (String × String)) :
    ((get_partition_info cur t).2).filterMap tableStatsArg = [] := by
  unfold get_partition_info
  split
  · rfl
  · rcases h1 : cur.partTablesRaw with e | pt <;>
      rcases h2 : cur.partKeysRaw with e2 | ks <;>
        simp [h1, h2, tableStatsArg]

lemma tsArg_col_stats (cur : Cursor) (t : List (String × String))
    (cols : List String) :
    ((get_column_stats cur t cols).2).filterMap tableStatsArg = [] := by
  unfold get_column_stats
  split <;> simp [tableStatsArg]

lemma tsArg_constraints (cur : Cursor) (t : List (String × String)) :
    ((get_constraints cur t).2).filterMap tableStatsArg = [] := by
  unfold get_constraints
  split
  · rfl
  · rcases h : cur.constraintsRaw with e | rows <;> simp [h, tableStatsArg]

lemma tsArg_optimizer (cur : Cursor) :
    ((get_optimizer_parameters cur).2).filterMap tableStatsArg = [] := by
  rcases h : cur.optimizerRaw with e | rows <;>
    simp [get_optimizer_parameters, h, tableStatsArg]

lemma tsArg_segments (cur : Cursor) (t : List (String × String)) :
    ((get_segment_sizes cur t).2).filterMap tableStatsArg = [] := by
  unfold get_segment_sizes
  split
  · rfl
  · rcases h1 : cur.dbaSegmentsRaw with e | rows
    · rcases h2 : cur.userSegmentsRaw with e2 | rows2 <;>
        simp [h1, h2, tableStatsArg]
    · simp [h1, tableStatsArg]

/-- No query issued by the preset-driven metadata phase carries a
table-statistics payload. -/
lemma tsArg_collect (preset : String) (cur : Cursor)
    (t : List (String × String)) (cols : List String) :
    ((collect_by_preset preset cur t cols).2).filterMap tableStatsArg = [] := by
  simp only [collect_by_preset]
  split
  · rfl
  · repeat' split
    all_goals
      simp [List.filterMap_append, tsArg_index_stats, tsArg_index_cols,
        tsArg_partition, tsArg_col_stats, tsArg_constraints, tsArg_optimizer,
        tsArg_segments]

/-- The table-statistics lookups a full run issues: exactly one, binding
the merged table list, unless that list is empty. -/
lemma tsArg_run_full (cfg : Config) (now elapsed : ℚ) (cur : Cursor)
    (s : String) :
    ((run_full_oracle_analysis cfg now elapsed cur s).2).filterMap
        tableStatsArg =
      if (analysisTables cur now s).isEmpty then []
      else [analysisTables cur now s] := by
  rw [← tsArg_table_stats cur (analysisTables cur now s)]
  simp only [run_full_oracle_analysis]
  split
  · simp [List.filterMap_append, tsArg_explain_plan, tsArg_plan_objects,
      tsArg_plan_details]
  · split
    · simp [List.filterMap_append, tsArg_explain_plan, tsArg_plan_objects,
        tsArg_plan_details, tsArg_collect]
    · split
      · simp [List.filterMap_append, tsArg_explain_plan, tsArg_plan_objects,
          tsArg_plan_details, tsArg_collect]
      · simp [List.filterMap_append, tsArg_explain_plan, tsArg_plan_objects,
          tsArg_plan_details, tsArg_collect, tableStatsArg]

lemma mem_insertBy {α : Type} (le : α → α → Bool) (x a : α) (l : List α) :
    a ∈ insertBy le x l ↔ a = x ∨ a ∈ l := by
  induction l with
  | nil => simp [insertBy]
  | cons y ys ih =>
    unfold insertBy
    split
    · simp [List.mem_cons]
    · simp only [List.mem_cons, ih]
      tauto

lemma mem_sortBy {α : Type} (le : α → α → Bool) (a : α) (l : List α) :
    a ∈ sortBy le l ↔ a ∈ l := by
  induction l with
  | nil => simp [sortBy]
  | cons y ys ih => simp [sortBy, mem_insertBy, ih]

lemma mem_setInsert {α : Type} [DecidableEq α] (l : List α) (x a : α) :
    a ∈ setInsert l x ↔ a = x ∨ a ∈ l := by
  unfold setInsert
  split
  · rename_i h
    constructor
    · exact fun hm => Or.inr hm
    · rintro (rfl | hm)
      · exact h
      · exact hm
  · simp only [List.mem_append, List.mem_singleton]
    tauto

/-- Membership in the merge fold: the initial (plan-derived) entries,
plus every owner-qualified SQL reference. -/
lemma mem_qual_fold (objs : List (Option String × String))
    (init : List (String × String)) (p : String × String) :
    p ∈ objs.foldl qualStep init ↔
      p ∈ init ∨ (some p.1, p.2) ∈ objs := by
  induction objs generalizing init with
  | nil => simp
  | cons o os ih =>
    rcases o with ⟨oo, ot⟩
    rcases oo with _ | ow
    · rw [List.foldl_cons]
      have h0 : qualStep init ((none : Option String), ot) = init := rfl
      rw [h0, ih]
      simp
    · rw [List.foldl_cons]
      have h0 : qualStep init (some ow, ot) = setInsert init (ow, ot) := rfl
      rw [h0, ih, mem_setInsert]
      simp only [List.mem_cons, Prod.mk.injEq, Option.some.injEq, Prod.ext_iff]
      tauto

/-- The merged table list is exactly the plan-derived tables together
with the owner-qualified references of the raw SQL. -/
lemma mem_analysisTables (cur : Cursor) (now : ℚ) (s : String)
    (p : String × String) :
    p ∈ analysisTables cur now s ↔
      p ∈ (get_plan_objects cur (genStmtId now)).1.1 ∨
      (some p.1, p.2) ∈ extract_sql_objects (normalize_sql s) := by
  unfold analysisTables
  rw [mem_sortBy, mem_qual_fold]

/-- C5: the spec says metadata is collected for exactly the plan-derived
table list, with no table-metadata lookups when the plan is empty.  The
code draws the scope wider: every run issues exactly one
table-statistics lookup — none only when the merged list is empty — and
the list it binds (`analysisTables`, which also keys every other
metadata getter) is the plan-derived tables together with the
owner-qualified references extracted from the raw SQL text, so a
reference such as `HR.EMP` in the SQL triggers lookups even when the
plan contributed nothing. -/
theorem metadata_tables_are_plan_union_sql_refs
    (cfg : Config) (now elapsed : ℚ) (cur : Cursor) (sql_text : String) :
    (((run_full_oracle_analysis cfg now elapsed cur sql_text).2).filterMap
        tableStatsArg =
      if (analysisTables cur now sql_text).isEmpty then []
      else [analysisTables cur now sql_text]) ∧
    ∀ p : String × String,
      p ∈ analysisTables cur now sql_text ↔
        (p ∈ (get_plan_objects cur (genStmtId now)).1.1 ∨
         (some p.1, p.2) ∈ extract_sql_objects (normalize_sql sql_text)) :=
  ⟨tsArg_run_full cfg now elapsed cur sql_text,
   fun p => mem_analysisTables cur now sql_text p⟩

/-- C5 counterexample: with plan acquisition failing — the run's
execution-plan display is the failure marker and its plan tree is empty
— analysing `SELECT * FROM HR.EMP` still issues a table-statistics
lookup binding `(HR, EMP)`, guessed from the raw SQL text; the spec says
an empty plan means no table-metadata lookups at all. -/
theorem plan_failure_still_issues_table_lookup :
    ((run_full_oracle_analysis ⟨"standard"⟩ (mkRat 26 5) 0 planFailCursor
        ("SELECT * FROM HR.EMP")).1.map
      (fun r => (r.facts.execution_plan, r.facts.plan_details)) =
      .ok (some [("(EXPLAIN PLAN failed: ORA-00904: invalid identifier)")],
        some [])) ∧
    Query.tableStats [(("HR"), ("EMP"))] ∈
      (run_full_oracle_analysis ⟨"standard"⟩ (mkRat 26 5) 0 planFailCursor
        ("SELECT * FROM HR.EMP")).2 := by
  exact ⟨rfl, by decide⟩

lemma noNl_iff (s : String) : noNl s = true ↔ ∀ c ∈ s.data, c ≠ '\n' := by
  simp [noNl]

lemma noNl_append (a b : String) : noNl (a ++ b) = (noNl a && noNl b) := by
  simp [noNl, String.data_append, List.all_append]

lemma nonBlankS_append (a b : String) :
    nonBlankS (a ++ b) = (nonBlankS a || nonBlankS b) := by
  simp [nonBlankS, nonBlankChars, String.data_append, List.any_append]

lemma digitChar_ne_nl (m : ℕ) : Nat.digitChar m ≠ '\n' := by
  by_cases h : m < 16
  · interval_cases m <;> decide
  · unfold Nat.digitChar
    repeat rw [if_neg (by omega)]
    decide

lemma toDigitsCore_ne_nl (b : ℕ) (fuel : ℕ) : ∀ (n : ℕ) (acc : List Char),
    (∀ c ∈ acc, c ≠ '\n') → ∀ c ∈ Nat.toDigitsCore b fuel n acc, c ≠ '\n' := by
  induction fuel with
  | zero =>
    intro n acc hacc c hc
    simp only [Nat.toDigitsCore] at hc
    exact hacc c hc
  | succ fuel ih =>
    intro n acc hacc c hc
    simp only [Nat.toDigitsCore] at hc
    split at hc
    · rcases List.mem_cons.mp hc with rfl | h2
      · exact digitChar_ne_nl _
      · exact hacc c h2
    · refine ih (n / b) (Nat.digitChar (n % b) :: acc) ?_ c hc
      intro x hx
      rcases List.mem_cons.mp hx with rfl | h2
      · exact digitChar_ne_nl _
      · exact hacc x h2

lemma natRepr_ne_nl (m : ℕ) : ∀ c ∈ (Nat.repr m).data, c ≠ '\n' := by
  have h : (Nat.repr m).data = Nat.toDigits 10 m := rfl
  rw [h]
  exact toDigitsCore_ne_nl 10 (m + 1) m [] (by simp)

lemma noNl_intToStr (n : ℤ) : noNl (toString n) = true := by
  rw [noNl_iff]
  cases n with
  | ofNat m =>
    have h : toString (Int.ofNat m) = Nat.repr m := rfl
    rw [h]
    exact natRepr_ne_nl m
  | negSucc m =>
    have h : toString (Int.negSucc m) = ("-") ++ Nat.repr (m + 1) := rfl
    rw [h]
    intro c hc
    rw [String.data_append] at hc
    rcases List.mem_append.mp hc with h1 | h2
    · simp at h1
      subst h1
      decide
    · exact natRepr_ne_nl (m + 1) c h2

lemma mem_intercalate {α : Type} (sep : List α) (ls : List (List α)) (c : α)
    (h : c ∈ List.intercalate sep ls) : c ∈ sep ∨ ∃ l ∈ ls, c ∈ l := by
  induction ls with
  | nil => simp [List.intercalate] at h
  | cons a t ih =>
    cases t with
    | nil =>
      right
      exact ⟨a, by simp, by simpa [List.intercalate] using h⟩
    | cons b t2 =>
      have hstep : List.intercalate sep (a :: b :: t2) =
          a ++ (sep ++ List.intercalate sep (b :: t2)) := by
        simp only [List.intercalate]
        rw [show List.intersperse sep (a :: b :: t2) =
          a :: sep :: List.intersperse sep (b :: t2) from rfl]
        rw [List.flatten_cons, List.flatten_cons]
      rw [hstep] at h
      rcases List.mem_append.mp h with h1 | h2
      · right
        exact ⟨a, by simp, h1⟩
      · rcases List.mem_append.mp h2 with h3 | h4
        · left
          exact h3
        · rcases ih h4 with h5 | ⟨l, hl, hcl⟩
          · left
            exact h5
          · right
            exact ⟨l, by simp [hl], hcl⟩

lemma pyJoin_mem (sep : String) (xs : List String) (c : Char)
    (hc : c ∈ (pyJoin sep xs).data) :
    c ∈ sep.data ∨ ∃ s ∈ xs, c ∈ s.data := by
  have h : (pyJoin sep xs).data =
      List.intercalate sep.data (xs.map String.data) := rfl
  rw [h] at hc
  rcases mem_intercalate sep.data (xs.map String.data) c hc with h1 | ⟨l, hl, hcl⟩
  · left
    exact h1
  · right
    rcases List.mem_map.mp hl with ⟨s, hs, rfl⟩
    exact ⟨s, hs, hcl⟩

lemma chunksGo_subset {α : Type} (k fuel : ℕ) :
    ∀ (l : List α), ∀ m ∈ chunksGo k fuel l, ∀ x ∈ m, x ∈ l := by
  induction fuel with
  | zero =>
    intro l m hm
    simp [chunksGo] at hm
  | succ fuel ih =>
    intro l m hm x hx
    cases l with
    | nil => simp [chunksGo] at hm
    | cons a t =>
      simp only [chunksGo] at hm
      rcases List.mem_cons.mp hm with rfl | hm2
      · exact List.take_subset k (a :: t) hx
      · exact List.drop_subset k (a :: t) (ih ((a :: t).drop k) m hm2 x hx)

lemma noNl_pyFmtComma (n : ℤ) : noNl (pyFmtComma n) = true := by
  rw [noNl_iff]
  intro c hc
  simp only [pyFmtComma] at hc
  rw [String.data_append] at hc
  rcases List.mem_append.mp hc with h1 | h2
  · split at h1
    · simp at h1
      subst h1
      decide
    · simp at h1
  · rcases pyJoin_mem _ _ _ h2 with hs | ⟨s, hsm, hcs⟩
    · simp at hs
      subst hs
      decide
    · rcases List.mem_map.mp hsm with ⟨piece, hp, rfl⟩
      rw [List.mem_reverse] at hp
      rcases List.mem_map.mp hp with ⟨chunk, hch, rfl⟩
      have hc2 : c ∈ chunk := by
        have h3 : (String.mk chunk.reverse).data = chunk.reverse := rfl
        rw [h3, List.mem_reverse] at hcs
        exact hcs
      have hc3 : c ∈ (toString n.natAbs).data.reverse :=
        chunksGo_subset 3 _ _ chunk hch c hc2
      rw [List.mem_reverse] at hc3
      have h4 : toString n.natAbs = Nat.repr n.natAbs := rfl
      rw [h4] at hc3
      exact natRepr_ne_nl n.natAbs c hc3

lemma strRepeat_mem (s : String) (n : ℤ) (c : Char)
    (h : c ∈ (strRepeat s n).data) : c ∈ s.data := by
  have hd : (strRepeat s n).data =
      List.flatten (List.replicate n.toNat s.data) := rfl
  rw [hd] at h
  rcases List.mem_flatten.mp h with ⟨l, hl, hcl⟩
  rw [List.eq_of_mem_replicate hl] at hcl
  exact hcl

lemma noNl_indent (n : ℤ) : noNl (strRepeat ("  ") n) = true := by
  rw [noNl_iff]
  intro c hc
  have := strRepeat_mem ("  ") n c hc
  simp at this
  subst this
  decide

lemma stripWs_subset (l : List Char) : stripWs l ⊆ l := by
  intro c hc
  unfold stripWs at hc
  rw [List.mem_reverse] at hc
  have hc2 := (List.dropWhile_sublist isPySpace).subset hc
  rw [List.mem_reverse] at hc2
  exact (List.dropWhile_sublist isPySpace).subset hc2

lemma noNl_pyStrip (s : String) (h : noNl s = true) :
    noNl (pyStrip s) = true := by
  rw [noNl_iff] at h ⊢
  intro c hc
  exact h c (stripWs_subset s.data hc)

lemma mem_ite_singleton {α : Type} {w x : α} {cond : Prop} [Decidable cond]
    (h : w ∈ if cond then [x] else []) : w = x := by
  split at h
  · simpa using h
  · simp at h

lemma noNl_warning (operation options cost cardinality : Val) :
    noNl (get_operation_warning operation options cost cardinality) = true := by
  rw [noNl_iff]
  intro c hc
  simp only [get_operation_warning] at hc
  rcases pyJoin_mem _ _ _ hc with hs | ⟨w, hw, hcw⟩
  · simp at hs
    subst hs
    decide
  · simp only [List.mem_append] at hw
    rcases hw with ((((((h1 | h2) | h3) | h4) | h5) | h6) | h7)
    · rw [mem_ite_singleton h1] at hcw
      exact (show ∀ x ∈ ("⚠️ HIGH-COST FULL SCAN" : String).data, x ≠ '\n' by decide) c hcw
    · rw [mem_ite_singleton h2] at hcw
      exact (show ∀ x ∈ ("⚠️ SKIP SCAN" : String).data, x ≠ '\n' by decide) c hcw
    · rw [mem_ite_singleton h3] at hcw
      exact (show ∀ x ∈ ("⚠️ LARGE NESTED LOOP" : String).data, x ≠ '\n' by decide) c hcw
    · rw [mem_ite_singleton h4] at hcw
      exact (show ∀ x ∈ ("⚠️ ALL PARTITIONS" : String).data, x ≠ '\n' by decide) c hcw
    · rw [mem_ite_singleton h5] at hcw
      exact (show ∀ x ∈ ("🚨 CARTESIAN JOIN" : String).data, x ≠ '\n' by decide) c hcw
    · rw [mem_ite_singleton h6] at hcw
      exact (show ∀ x ∈ ("✅" : String).data, x ≠ '\n' by decide) c hcw
    · rw [mem_ite_singleton h7] at hcw
      exact (show ∀ x ∈ ("✅" : String).data, x ≠ '\n' by decide) c hcw

/-- Changing the default of a `.get` either leaves the result unchanged
(key present) or yields each default (key absent). -/
lemma rget_default_cases (r : Row) (k : String) (d1 d2 : Val) :
    rget r k d1 = rget r k d2 ∨ (rget r k d1 = d1 ∧ rget r k d2 = d2) := by
  unfold rget
  rcases h : r.reverse.find? (fun kv => kv.1 == k) with _ | kv
  · right
    simp [h]
  · left
    simp [h]

lemma renderOk_operation (r : Row) (h : stepRenderOk r = true) :
    noNl (pyToStr (rget r ("operation") (.vStr ""))) = true := by
  simp only [stepRenderOk, Bool.and_eq_true] at h
  rcases h with ⟨⟨⟨⟨h1, _⟩, _⟩, _⟩, _⟩
  rcases hv : rget r ("operation") (.vStr "") with _ | _ | _ | _ | s <;>
    rw [hv] at h1 <;> simp at h1
  simpa [pyToStr] using h1

lemma renderOk_options (r : Row) (h : stepRenderOk r = true) :
    noNl (pyToStr (rget r ("options") (.vStr ""))) = true := by
  simp only [stepRenderOk, Bool.and_eq_true] at h
  rcases h with ⟨⟨⟨⟨_, h1⟩, _⟩, _⟩, _⟩
  rcases hv : rget r ("options") (.vStr "") with _ | _ | _ | _ | s <;>
    rw [hv] at h1 <;> simp at h1
  · decide
  · simpa [pyToStr] using h1

lemma renderOk_object (r : Row) (h : stepRenderOk r = true) :
    noNl (pyToStr (rget r ("object_name") (.vStr ""))) = true := by
  simp only [stepRenderOk, Bool.and_eq_true] at h
  rcases h with ⟨⟨⟨⟨_, _⟩, h1⟩, _⟩, _⟩
  rcases hv : rget r ("object_name") (.vStr "") with _ | _ | _ | _ | s <;>
    rw [hv] at h1 <;> simp at h1
  · decide
  · simpa [pyToStr] using h1

lemma renderOk_cost (r : Row) (h : stepRenderOk r = true) :
    noNl (pyToStr (rget r ("cost") (.vInt 0))) = true := by
  simp only [stepRenderOk, Bool.and_eq_true] at h
  rcases h with ⟨⟨⟨⟨_, _⟩, _⟩, h1⟩, _⟩
  rcases hv : rget r ("cost") (.vInt 0) with _ | _ | n | _ | _ <;>
    rw [hv] at h1 <;> simp at h1
  exact noNl_intToStr n

lemma renderOk_card (r : Row) (h : stepRenderOk r = true) :
    noNl (pyFmtCommaV (rget r ("cardinality") (.vInt 0))) = true := by
  simp only [stepRenderOk, Bool.and_eq_true] at h
  rcases h with ⟨⟨⟨⟨_, _⟩, _⟩, _⟩, h1⟩
  rcases hv : rget r ("cardinality") (.vInt 0) with _ | _ | n | _ | _ <;>
    rw [hv] at h1 <;> simp at h1
  · decide
  · exact noNl_pyFmtComma n

lemma noNl_lit_last : noNl ("└─ ") = true := by decide

lemma noNl_lit_mid : noNl ("├─ ") = true := by decide

lemma noNl_lit_colon : noNl (": ") = true := by decide

lemma noNl_lit_cost : noNl (" (Cost: ") = true := by decide

lemma noNl_lit_rows : noNl (", Rows: ") = true := by decide

lemma noNl_lit_close : noNl (")") = true := by decide

lemma noNl_lit_space : noNl (" ") = true := by decide

lemma noNl_lit_empty : noNl ("") = true := by decide

lemma noNl_lit_chart : noNl ("📊 ") = true := by decide

lemma noNl_lit_total : noNl (" (Total Cost: ") = true := by decide

lemma nonBlank_lit_cost : nonBlankS (" (Cost: ") = true := by decide

lemma nonBlank_lit_chart : nonBlankS ("📊 ") = true := by decide

/-- A step whose values are well-shaped renders without embedded
newlines. -/
lemma stepLine_noNl (pd : List Row) (i : Nat) (step : Row)
    (h : stepRenderOk step = true) :
    noNl (stepLine pd true i step) = true := by
  have hop := renderOk_operation step h
  have hopt := renderOk_options step h
  have hobj := renderOk_object step h
  have hcost := renderOk_cost step h
  have hcard := renderOk_card step h
  simp only [stepLine]
  repeat' split
  all_goals
    first
    | exact absurd trivial (by assumption)
    | simp [noNl_append, hop, hopt, hobj, hcost, hcard, noNl_pyStrip,
        noNl_indent, noNl_warning, noNl_lit_last, noNl_lit_mid, noNl_lit_colon,
        noNl_lit_cost, noNl_lit_rows, noNl_lit_close, noNl_lit_space,
        noNl_lit_empty]

/-- With cost display on, every step line carries the literal
`(Cost:` marker, so it is never blank. -/
lemma stepLine_nonBlank (pd : List Row) (i : Nat) (step : Row) :
    nonBlankS (stepLine pd true i step) = true := by
  simp only [stepLine]
  repeat' split
  all_goals
    first
    | exact absurd trivial (by assumption)
    | simp [nonBlankS_append, nonBlank_lit_cost]

lemma root_noNl (root : Row) (h : stepRenderOk root = true) :
    noNl (("📊 ") ++ pyToStr (rget root ("operation") (.vStr ("QUERY"))) ++
      (" (Total Cost: ") ++ pyToStr (rget root ("cost") (.vInt 0)) ++
      (")")) = true := by
  have hcost := renderOk_cost root h
  have hop : noNl (pyToStr (rget root ("operation") (.vStr ("QUERY")))) = true := by
    rcases rget_default_cases root ("operation") (.vStr ("QUERY")) (.vStr "")
        with he | ⟨ha, _⟩
    · rw [he]
      exact renderOk_operation root h
    · rw [ha]
      decide
  simp [noNl_append, hop, hcost, noNl_lit_chart, noNl_lit_total, noNl_lit_close]

lemma root_nonBlank (root : Row) :
    nonBlankS (("📊 ") ++ pyToStr (rget root ("operation") (.vStr ("QUERY"))) ++
      (" (Total Cost: ") ++ pyToStr (rget root ("cost") (.vInt 0)) ++
      (")")) = true := by
  simp [nonBlankS_append, nonBlank_lit_chart]

/-- Counting the non-blank lines of a newline join: when no joined line
holds a newline itself, the count is the number of non-blank entries. -/
lemma countNonBlank_pyJoin (lines : List String) (hn : lines ≠ [])
    (h : ∀ s ∈ lines, noNl s = true) :
    countNonBlankLines (pyJoin ("\n") lines).data =
      (lines.filter nonBlankS).length := by
  have hdata : (pyJoin ("\n") lines).data =
      List.intercalate ['\n'] (lines.map String.data) := rfl
  unfold countNonBlankLines
  rw [hdata]
  have hsplit : (List.intercalate ['\n'] (lines.map String.data)).splitOn '\n' =
      lines.map String.data := by
    have hx : ∀ l ∈ lines.map String.data, '\n' ∉ l := by
      intro l hl
      rcases List.mem_map.mp hl with ⟨s, hs, rfl⟩
      intro hmem
      exact absurd rfl ((noNl_iff s).mp (h s hs) _ hmem)
    have hnn : lines.map String.data ≠ [] := by simpa using hn
    have hres := List.splitOn_intercalate (lines.map String.data) '\n' hx hnn
    simpa [List.intercalate] using hres
  rw [hsplit, List.filter_map, List.length_map]
  rfl

lemma nonBlank_empty : nonBlankS ("") = false := rfl

lemma snd_mem_of_mem_enum {α : Type} (l : List α) (x : ℕ × α)
    (h : x ∈ l.enum) : x.2 ∈ l := by
  rcases x with ⟨i, c⟩
  have h2 := (List.mem_enumFrom h).2.2
  have h1 := (List.mem_enumFrom h).2.1
  simp at h1 h2
  rw [h2]
  exact List.getElem_mem (by omega)

lemma count_root_steps (rootL : String) (steps : List String)
    (hr1 : noNl rootL = true) (hr2 : nonBlankS rootL = true)
    (hs1 : ∀ s ∈ steps, noNl s = true)
    (hs2 : ∀ s ∈ steps, nonBlankS s = true) :
    countNonBlankLines (pyJoin ("\n") ([rootL, ""] ++ steps)).data =
      steps.length + 1 := by
  rw [countNonBlank_pyJoin]
  · have hfilter : (([rootL, ""] ++ steps).filter nonBlankS) =
        rootL :: steps.filter nonBlankS := by
      simp [List.filter_append, List.filter_cons, hr2, nonBlank_empty]
    rw [hfilter, List.filter_eq_self.mpr hs2]
    simp
  · simp
  · intro s hs
    rcases List.mem_append.mp hs with h1 | h2
    · rcases List.mem_cons.mp h1 with rfl | h3
      · exact hr1
      · simp at h3
        subst h3
        decide
    · exact hs1 s h2

/-- C10: for every non-empty plan tree whose step values are well-shaped
(`stepRenderOk`: newline-free text fields, integer cost and
cardinality), `build_visual_plan` with cost display renders exactly one
non-blank line per plan step — the root line, a blank spacer, then one
line per later step — so counting non-blank lines of the rendered text
recovers the step count exactly. -/
theorem visual_plan_line_count (pd : List Row) (h1 : pd ≠ [])
    (h2 : pd.all stepRenderOk = true) :
    countNonBlankLines (build_visual_plan pd true).data = pd.length := by
  have hall : ∀ r ∈ pd, stepRenderOk r = true := by
    simpa [List.all_eq_true] using h2
  have hroot_mem : pd.headD [] ∈ pd := by
    cases pd with
    | nil => exact absurd rfl h1
    | cons a t => simp
  have hempty : pd.isEmpty = false := by
    cases pd with
    | nil => exact absurd rfl h1
    | cons a t => rfl
  simp only [build_visual_plan, hempty, Bool.false_eq_true, if_false]
  rw [count_root_steps]
  · rw [List.length_map, List.enum_length, List.length_drop]
    have hpos : 0 < pd.length := List.length_pos.mpr h1
    omega
  · exact root_noNl (pd.headD []) (hall _ hroot_mem)
  · exact root_nonBlank (pd.headD [])
  · intro s hs
    rcases List.mem_map.mp hs with ⟨ist, hmem, rfl⟩
    exact stepLine_noNl pd _ ist.2
      (hall _ (List.drop_subset 1 pd (snd_mem_of_mem_enum (pd.drop 1) ist hmem)))
  · intro s hs
    rcases List.mem_map.mp hs with ⟨ist, hmem, rfl⟩
    exact stepLine_nonBlank pd _ ist.2

/-- The line-count theorem instantiated on a concrete three-step plan. -/
theorem visual_plan_line_count_witness :
    vpPlan ≠ [] ∧ vpPlan.all stepRenderOk = true ∧
    countNonBlankLines (build_visual_plan vpPlan true).data = vpPlan.length :=
  ⟨by decide, by decide, visual_plan_line_count vpPlan (by decide) (by decide)⟩

/-! ## Literal-invariance of the fingerprint -/

lemma rstripSemis_eq_self (l : List Char)
    (h : match l.reverse with | [] => True | c :: _ => c ≠ ';') :
    rstripSemis l = l := by
  unfold rstripSemis
  rcases hr : l.reverse with _ | ⟨c, t⟩
  · have hl : l = [] := by simpa using congrArg List.reverse hr
    subst hl
    rfl
  · rw [hr] at h
    simp only [List.dropWhile_cons]
    rw [if_neg (by simpa using h)]
    rw [← hr, List.reverse_reverse]

lemma stripWs_eq_self (l : List Char)
    (h1 : match l with | [] => True | c :: _ => isPySpace c = false)
    (h2 : match l.reverse with | [] => True | c :: _ => isPySpace c = false) :
    stripWs l = l := by
  unfold stripWs
  have hd : l.dropWhile isPySpace = l := by
    rcases l with _ | ⟨c, t⟩
    · rfl
    · simp only [List.dropWhile_cons]
      rw [if_neg (by simp [h1])]
  rw [hd]
  rcases hr : l.reverse with _ | ⟨c, t⟩
  · have hl : l = [] := by simpa using congrArg List.reverse hr
    subst hl
    rfl
  · rw [hr] at h2
    simp only [List.dropWhile_cons]
    rw [if_neg (by simp [h2])]
    rw [← hr, List.reverse_reverse]

lemma digit_ne_semi (c : Char) (h : c.isDigit = true) : c ≠ ';' := by
  intro he
  subst he
  exact absurd h (by decide)

lemma digit_not_space (c : Char) (h : c.isDigit = true) :
    isPySpace c = false := by
  cases hsp : isPySpace c
  · rfl
  · exfalso
    simp [isPySpace] at hsp
    rcases hsp with ((((h1 | h1) | h1) | h1) | h1) | h1 <;> subst h1 <;>
      exact absurd h (by decide)

/-- A digit run being buffered is flushed as `:N` at the end of input,
whatever the buffered digits were. -/
lemma numSubGo_digits (ds : List Char) (h : ∀ c ∈ ds, c.isDigit = true) :
    ∀ (pw : Bool) (acc : List Char), numSubGo pw (some acc) ds = [':', 'N'] := by
  induction ds with
  | nil => intro pw acc; rfl
  | cons c cs ih =>
    intro pw acc
    have hc : c.isDigit = true := h c (by simp)
    simp only [numSubGo, hc, if_true]
    exact ih (fun x hx => h x (by simp [hx])) pw (acc ++ [c])

/-- The number-substitution scanner copies the fixed prefix
`WHERE id = ` unchanged and ends it back in the initial state. -/
lemma numSub_pre_id (t : List Char) :
    numSubGo false none (("WHERE id = ").data ++ t) =
      ("WHERE id = ").data ++ numSubGo false none t := rfl

lemma numSub_where_id (d : List Char) (hne : d ≠ [])
    (h : ∀ c ∈ d, c.isDigit = true) :
    numSub (("WHERE id = ").data ++ d) = ("WHERE id = ").data ++ [':', 'N'] := by
  unfold numSub
  rw [numSub_pre_id]
  congr 1
  rcases d with _ | ⟨c, cs⟩
  · exact absurd rfl hne
  · have hc : c.isDigit = true := h c (by simp)
    simp only [numSubGo, hc, Bool.not_false, Bool.and_true, if_true]
    exact numSubGo_digits cs (fun x hx => h x (by simp [hx])) true [c]

/-- Integer-literal invariance at the fingerprint: any non-empty digit
run in the value position yields the fingerprint of `WHERE id = 123`. -/
lemma fingerprint_int_lit (d : List Char) (hne : d ≠ [])
    (hd : ∀ c ∈ d, c.isDigit = true) :
    normalize_and_hash (("WHERE id = ") ++ String.mk d) =
      normalize_and_hash ("WHERE id = 123") := by
  have hdata : (("WHERE id = ") ++ String.mk d).data = ("WHERE id = ").data ++ d := by
    rw [String.data_append]
  have hne2 : (("WHERE id = ") ++ String.mk d) ≠ "" := by
    intro he
    have h3 := congrArg String.data he
    rw [hdata] at h3
    simp at h3
  obtain ⟨lc, lt, hrev, hlcd⟩ : ∃ c t, d.reverse = c :: t ∧ c.isDigit = true := by
    rcases hr : d.reverse with _ | ⟨c, t⟩
    · exact absurd (by simpa using congrArg List.reverse hr) hne
    · exact ⟨c, t, rfl, hd c (by rw [← List.mem_reverse, hr]; simp)⟩
  have hnorm : sqlNormalize (("WHERE id = ") ++ String.mk d) =
      ("WHERE ID = :N") := by
    simp only [sqlNormalize]
    rw [hdata]
    rw [rstripSemis_eq_self (("WHERE id = ").data ++ d)]
    · rw [stripWs_eq_self (("WHERE id = ").data ++ d)]
      · rw [numSub_where_id d hne hd]
        decide
      · show isPySpace ('W') = false
        decide
      · rw [List.reverse_append, hrev]
        exact digit_not_space lc hlcd
    · rw [List.reverse_append, hrev]
      exact digit_ne_semi lc hlcd
  unfold normalize_and_hash
  rw [if_neg hne2, hnorm]
  decide

/-- Scanning quote-free text that ends at a quote: the number scanner
may rewrite digit runs, but it produces quote-free text ending at the
same quote, whatever state it is in. -/
lemma numSub_quote_free (l : List Char) :
    (∀ c ∈ l, c ≠ qc) →
    (∀ pw : Bool,
      ∃ Y, numSubGo pw none (l ++ [qc]) = Y ++ [qc] ∧ ∀ c ∈ Y, c ≠ qc) ∧
    (∀ (pw : Bool) (acc : List Char), (∀ c ∈ acc, c ≠ qc) →
      ∃ Y, numSubGo pw (some acc) (l ++ [qc]) = Y ++ [qc] ∧ ∀ c ∈ Y, c ≠ qc) := by
  induction l with
  | nil =>
    intro _
    constructor
    · intro pw
      refine ⟨[], ?_, by simp⟩
      show numSubGo pw none [qc] = [] ++ [qc]
      simp [numSubGo, show qc.isDigit = false from by decide]
    · intro pw acc _
      refine ⟨[':', 'N'], ?_, by decide⟩
      show numSubGo pw (some acc) [qc] = [':', 'N'] ++ [qc]
      simp [numSubGo, show qc.isDigit = false from by decide,
        show isWordChar qc = false from by decide]
  | cons c cs ih =>
    intro hl
    have hc : c ≠ qc := hl c (by simp)
    have hcs : ∀ x ∈ cs, x ≠ qc := fun x hx => hl x (by simp [hx])
    obtain ⟨ihn, ihs⟩ := ih hcs
    constructor
    · intro pw
      by_cases hb : (c.isDigit && !pw) = true
      · obtain ⟨Y, hY, hYq⟩ := ihs true [c] (by simpa using hc)
        refine ⟨Y, ?_, hYq⟩
        show numSubGo pw none (c :: (cs ++ [qc])) = Y ++ [qc]
        simp [numSubGo, hb, hY]
      · have hb2 : (c.isDigit && !pw) = false := by
          rw [Bool.eq_false_iff]
          exact hb
        obtain ⟨Y, hY, hYq⟩ := ihn (isWordChar c)
        refine ⟨c :: Y, ?_, ?_⟩
        · show numSubGo pw none (c :: (cs ++ [qc])) = (c :: Y) ++ [qc]
          simp [numSubGo, hb2, hY]
        · intro x hx
          rcases List.mem_cons.mp hx with rfl | h2
          · exact hc
          · exact hYq x h2
    · intro pw acc hacc
      by_cases hd : c.isDigit = true
      · have haccc : ∀ x ∈ acc ++ [c], x ≠ qc := by
          intro x hx
          rcases List.mem_append.mp hx with h1 | h2
          · exact hacc x h1
          · simp at h2
            subst h2
            exact hc
        obtain ⟨Y, hY, hYq⟩ := ihs pw (acc ++ [c]) haccc
        refine ⟨Y, ?_, hYq⟩
        show numSubGo pw (some acc) (c :: (cs ++ [qc])) = Y ++ [qc]
        simp [numSubGo, hd, hY]
      · have hd2 : c.isDigit = false := by
          rw [Bool.eq_false_iff]
          exact hd
        by_cases hw : isWordChar c = true
        · obtain ⟨Y, hY, hYq⟩ := ihn true
          refine ⟨acc ++ (c :: Y), ?_, ?_⟩
          · show numSubGo pw (some acc) (c :: (cs ++ [qc])) =
              (acc ++ (c :: Y)) ++ [qc]
            simp [numSubGo, hd2, hw, hY]
          · intro x hx
            rcases List.mem_append.mp hx with h1 | h2
            · exact hacc x h1
            · rcases List.mem_cons.mp h2 with rfl | h3
              · exact hc
              · exact hYq x h3
        · have hw2 : isWordChar c = false := by
            rw [Bool.eq_false_iff]
            exact hw
          obtain ⟨Y, hY, hYq⟩ := ihn false
          refine ⟨':' :: 'N' :: c :: Y, ?_, ?_⟩
          · show numSubGo pw (some acc) (c :: (cs ++ [qc])) =
              (':' :: 'N' :: c :: Y) ++ [qc]
            simp [numSubGo, hd2, hw2, hY]
          · intro x hx
            rcases List.mem_cons.mp hx with rfl | h2
            · decide
            · rcases List.mem_cons.mp h2 with rfl | h3
              · decide
              · rcases List.mem_cons.mp h3 with rfl | h4
                · exact hc
                · exact hYq x h4

/-- The string scanner copies a quote-free prefix unchanged. -/
lemma strSubGo_copy (P : List Char) (hP : ∀ c ∈ P, c ≠ qc)
    (t : List Char) : strSubGo none (P ++ t) = P ++ strSubGo none t := by
  induction P with
  | nil => rfl
  | cons c cs ih =>
    have hc : c ≠ qc := hP c (by simp)
    have ih2 := ih (fun x hx => hP x (by simp [hx]))
    show strSubGo none (c :: (cs ++ t)) = c :: (cs ++ strSubGo none t)
    simp [strSubGo, hc, ih2]

/-- Opening a quote puts the string scanner in the pending state. -/
lemma strSub_open (t : List Char) :
    strSubGo none (qc :: t) = strSubGo (some []) t := by
  simp [strSubGo]

/-- A pending quoted run is closed at the next quote and replaced by
`:S`, whatever its quote-free contents were. -/
lemma strSubGo_pending (Y : List Char) (hY : ∀ c ∈ Y, c ≠ qc) :
    ∀ (acc t : List Char),
      strSubGo (some acc) (Y ++ qc :: t) = ':' :: 'S' :: strSubGo none t := by
  induction Y with
  | nil =>
    intro acc t
    simp [strSubGo]
  | cons c cs ih =>
    intro acc t
    have hc : c ≠ qc := hY c (by simp)
    have ih2 := ih (fun x hx => hY x (by simp [hx]))
    show strSubGo (some acc) (c :: (cs ++ qc :: t)) = ':' :: 'S' :: strSubGo none t
    simp [strSubGo, hc, ih2]

/-- The number scanner copies the fixed prefix `WHERE name = `
unchanged and ends it back in the initial state. -/
lemma numSub_pre_name (t : List Char) :
    numSubGo false none (("WHERE name = ").data ++ t) =
      ("WHERE name = ").data ++ numSubGo false none t := rfl

/-- An opening quote in the initial state is copied. -/
lemma numSub_open_quote (t : List Char) :
    numSubGo false none (qc :: t) = qc :: numSubGo false none t := rfl

/-- String-literal invariance at the fingerprint: any quote-free
content in the value position yields the fingerprint of
`WHERE name = 'x'`. -/
lemma fingerprint_str_lit (s : List Char) (hs : ∀ c ∈ s, c ≠ qc) :
    normalize_and_hash (("WHERE name = ") ++ qs (String.mk s)) =
      normalize_and_hash (("WHERE name = ") ++ qs ("x")) := by
  have hdata : (("WHERE name = ") ++ qs (String.mk s)).data =
      ("WHERE name = ").data ++ (qc :: (s ++ [qc])) := by
    simp [qs, String.data_append]
  have hne2 : (("WHERE name = ") ++ qs (String.mk s)) ≠ "" := by
    intro he
    have h3 := congrArg String.data he
    rw [hdata] at h3
    simp at h3
  have hnorm : sqlNormalize (("WHERE name = ") ++ qs (String.mk s)) =
      ("WHERE NAME = :S") := by
    simp only [sqlNormalize]
    rw [hdata]
    rw [rstripSemis_eq_self (("WHERE name = ").data ++ (qc :: (s ++ [qc])))]
    · rw [stripWs_eq_self (("WHERE name = ").data ++ (qc :: (s ++ [qc])))]
      · show String.mk ((stripWs (wsCollapse (strSub (numSubGo false none
          (("WHERE name = ").data ++ (qc :: (s ++ [qc]))))))).map Char.toUpper) =
          ("WHERE NAME = :S")
        rw [numSub_pre_name (qc :: (s ++ [qc])), numSub_open_quote (s ++ [qc])]
        obtain ⟨Y, hY, hYq⟩ := ((numSub_quote_free s) hs).1 false
        rw [hY]
        show String.mk ((stripWs (wsCollapse (strSubGo none
          (("WHERE name = ").data ++ (qc :: (Y ++ [qc])))))).map Char.toUpper) =
          ("WHERE NAME = :S")
        rw [strSubGo_copy (("WHERE name = ").data) (by decide)]
        rw [strSub_open (Y ++ [qc])]
        rw [show (Y ++ [qc] : List Char) = Y ++ qc :: [] from rfl]
        rw [strSubGo_pending Y hYq [] []]
        decide
      · show isPySpace ('W') = false
        decide
      · rw [List.reverse_append, List.reverse_cons, List.reverse_append]
        show isPySpace qc = false
        decide
    · rw [List.reverse_append, List.reverse_cons, List.reverse_append]
      show qc ≠ (';')
      decide
  unfold normalize_and_hash
  rw [if_neg hne2, hnorm]
  decide

/-- C8: the fingerprint is literal-invariant — replacing the integer
literal of `WHERE id = 123` by any non-empty digit run, or the contents
of the quoted literal of `WHERE name = 'x'` by any quote-free contents,
leaves the fingerprint unchanged, while the two structurally different
texts hash to different fingerprints. -/
theorem fingerprint_literal_invariance :
    (∀ d : List Char, d ≠ [] → (∀ c ∈ d, c.isDigit = true) →
      normalize_and_hash (("WHERE id = ") ++ String.mk d) =
        normalize_and_hash ("WHERE id = 123")) ∧
    (∀ s : List Char, (∀ c ∈ s, c ≠ qc) →
      normalize_and_hash (("WHERE name = ") ++ qs (String.mk s)) =
        normalize_and_hash (("WHERE name = ") ++ qs ("x"))) ∧
    normalize_and_hash ("WHERE id = 123") ≠
      normalize_and_hash (("WHERE name = ") ++ qs ("x")) :=
  ⟨fun d h1 h2 => fingerprint_int_lit d h1 h2,
   fun s h => fingerprint_str_lit s h,
   by decide⟩

lemma digitChar_decode : ∀ m, m < 10 → (Nat.digitChar m).toNat - 48 = m := by
  decide

lemma digitChar_isDigit : ∀ m, m < 10 → (Nat.digitChar m).isDigit = true := by
  decide

/-- The digit renderer is a right inverse of the parser: folding the
parser over the rendered digits of `n` (prepended to any accumulator)
continues the fold with the value shifted by `n`. -/
lemma toDigitsCore_decode (fuel : ℕ) : ∀ (n : ℕ) (acc : List Char) (a0 : ℕ),
    n < 10 ^ fuel →
    ∃ k : ℕ, (Nat.toDigitsCore 10 fuel n acc).foldl decStep a0 =
      acc.foldl decStep (a0 * 10 ^ k + n) ∧ n < 10 ^ k := by
  induction fuel with
  | zero =>
    intro n acc a0 h
    have hn : n = 0 := by simpa using h
    subst hn
    exact ⟨0, by simp [Nat.toDigitsCore], by simp⟩
  | succ fuel ih =>
    intro n acc a0 h
    by_cases hn : n / 10 = 0
    · have hlt : n < 10 := by omega
      refine ⟨1, ?_, by simpa using hlt⟩
      simp only [Nat.toDigitsCore]
      rw [if_pos hn, List.foldl_cons]
      congr 1
      have hdec := digitChar_decode (n % 10) (by omega)
      have hmod : n % 10 = n := Nat.mod_eq_of_lt hlt
      rw [hmod] at hdec
      simp only [decStep, hdec, hmod, pow_one]
      omega
    · have hdiv : n / 10 < 10 ^ fuel := by
        have h10 : (0 : ℕ) < 10 := by norm_num
        rw [Nat.div_lt_iff_lt_mul h10]
        calc n < 10 ^ (fuel + 1) := h
          _ = 10 ^ fuel * 10 := by ring
      obtain ⟨k, hfold, hk⟩ := ih (n / 10) (Nat.digitChar (n % 10) :: acc) a0 hdiv
      refine ⟨k + 1, ?_, ?_⟩
      · simp only [Nat.toDigitsCore]
        rw [if_neg hn, hfold, List.foldl_cons]
        congr 1
        have hdec := digitChar_decode (n % 10) (by omega)
        simp only [decStep, hdec]
        calc 10 * (a0 * 10 ^ k + n / 10) + n % 10
            = a0 * (10 ^ k * 10) + (10 * (n / 10) + n % 10) := by ring
          _ = a0 * 10 ^ (k + 1) + n := by rw [Nat.div_add_mod]; ring_nf
      · calc n = 10 * (n / 10) + n % 10 := (Nat.div_add_mod n 10).symm
          _ < 10 * (n / 10) + 10 := by omega
          _ = 10 * (n / 10 + 1) := by ring
          _ ≤ 10 * 10 ^ k := Nat.mul_le_mul_left 10 hk
          _ = 10 ^ (k + 1) := by ring

lemma decode_natRepr (n : ℕ) : decDigits ((Nat.repr n).data) = n := by
  have hlt : n < 10 ^ (n + 1) :=
    calc n < 10 ^ n := Nat.lt_pow_self (by norm_num) n
      _ ≤ 10 ^ (n + 1) := Nat.pow_le_pow_right (by norm_num) (by omega)
  obtain ⟨k, hfold, _⟩ := toDigitsCore_decode (n + 1) n [] 0 hlt
  have hdata : (Nat.repr n).data = Nat.toDigitsCore 10 (n + 1) n [] := rfl
  rw [hdata]
  unfold decDigits
  rw [hfold]
  simp

lemma natRepr_inj (m1 m2 : ℕ) (h : Nat.repr m1 = Nat.repr m2) : m1 = m2 := by
  have h2 := congrArg (fun s => decDigits (String.data s)) h
  simpa [decode_natRepr] using h2

lemma toDigitsCore_length (fuel : ℕ) : ∀ (n : ℕ) (acc : List Char),
    acc.length ≤ (Nat.toDigitsCore 10 fuel n acc).length := by
  induction fuel with
  | zero =>
    intro n acc
    simp [Nat.toDigitsCore]
  | succ fuel ih =>
    intro n acc
    simp only [Nat.toDigitsCore]
    split
    · simp
    · calc acc.length ≤ (Nat.digitChar (n % 10) :: acc).length := by simp
        _ ≤ _ := ih (n / 10) _

lemma toDigits_ne_nil (n : ℕ) : Nat.toDigits 10 n ≠ [] := by
  unfold Nat.toDigits
  simp only [Nat.toDigitsCore]
  split
  · simp
  · intro he
    have hlen := toDigitsCore_length n (n / 10) [Nat.digitChar (n % 10)]
    rw [he] at hlen
    simp at hlen

lemma toDigitsCore10_digits (fuel : ℕ) : ∀ (n : ℕ) (acc : List Char),
    (∀ c ∈ acc, c.isDigit = true) →
    ∀ c ∈ Nat.toDigitsCore 10 fuel n acc, c.isDigit = true := by
  induction fuel with
  | zero =>
    intro n acc hacc c hc
    simp only [Nat.toDigitsCore] at hc
    exact hacc c hc
  | succ fuel ih =>
    intro n acc hacc c hc
    simp only [Nat.toDigitsCore] at hc
    split at hc
    · rcases List.mem_cons.mp hc with rfl | h2
      · exact digitChar_isDigit (n % 10) (by omega)
      · exact hacc c h2
    · refine ih (n / 10) (Nat.digitChar (n % 10) :: acc) ?_ c hc
      intro x hx
      rcases List.mem_cons.mp hx with rfl | h2
      · exact digitChar_isDigit (n % 10) (by omega)
      · exact hacc x h2

/-- `str` on integers is injective. -/
lemma intToStr_inj (a b : ℤ) (h : toString a = toString b) : a = b := by
  have hdata := congrArg String.data h
  cases a with
  | ofNat m1 =>
    cases b with
    | ofNat m2 =>
      have h1 : toString (Int.ofNat m1) = Nat.repr m1 := rfl
      have h2 : toString (Int.ofNat m2) = Nat.repr m2 := rfl
      rw [h1, h2] at h
      exact congrArg Int.ofNat (natRepr_inj m1 m2 h)
    | negSucc m2 =>
      exfalso
      have h1 : (toString (Int.ofNat m1)).data = Nat.toDigits 10 m1 := rfl
      have h2 : (toString (Int.negSucc m2)).data =
          '-' :: Nat.toDigits 10 (m2 + 1) := rfl
      rw [h1, h2] at hdata
      rcases he : Nat.toDigits 10 m1 with _ | ⟨c, t⟩
      · exact toDigits_ne_nil m1 he
      · rw [he] at hdata
        have hmem : c ∈ Nat.toDigitsCore 10 (m1 + 1) m1 [] := by
          rw [show Nat.toDigitsCore 10 (m1 + 1) m1 [] = Nat.toDigits 10 m1 from rfl,
            he]
          simp
        have hcd : c.isDigit = true :=
          toDigitsCore10_digits (m1 + 1) m1 [] (by simp) c hmem
        simp only [List.cons.injEq] at hdata
        rw [hdata.1] at hcd
        exact absurd hcd (by decide)
  | negSucc m1 =>
    cases b with
    | ofNat m2 =>
      exfalso
      have h1 : (toString (Int.negSucc m1)).data =
          '-' :: Nat.toDigits 10 (m1 + 1) := rfl
      have h2 : (toString (Int.ofNat m2)).data = Nat.toDigits 10 m2 := rfl
      rw [h1, h2] at hdata
      rcases he : Nat.toDigits 10 m2 with _ | ⟨c, t⟩
      · exact toDigits_ne_nil m2 he
      · rw [he] at hdata
        have hmem : c ∈ Nat.toDigitsCore 10 (m2 + 1) m2 [] := by
          rw [show Nat.toDigitsCore 10 (m2 + 1) m2 [] = Nat.toDigits 10 m2 from rfl,
            he]
          simp
        have hcd : c.isDigit = true :=
          toDigitsCore10_digits (m2 + 1) m2 [] (by simp) c hmem
        simp only [List.cons.injEq] at hdata
        rw [← hdata.1] at hcd
        exact absurd hcd (by decide)
    | negSucc m2 =>
      have h1 : (toString (Int.negSucc m1)).data =
          '-' :: Nat.toDigits 10 (m1 + 1) := rfl
      have h2 : (toString (Int.negSucc m2)).data =
          '-' :: Nat.toDigits 10 (m2 + 1) := rfl
      rw [h1, h2] at hdata
      simp only [List.cons.injEq, true_and] at hdata
      have hr : Nat.repr (m1 + 1) = Nat.repr (m2 + 1) := by
        apply String.ext
        exact hdata
      have hm12 := natRepr_inj (m1 + 1) (m2 + 1) hr
      have hm : m1 = m2 := by omega
      rw [hm]

/-- C9: the spec wants identifiers that never collide across
invocations (time-based plus random suffix).  The code derives the
identifier from the whole-second timestamp alone, so two invocations
collide exactly when their start times truncate to the same whole
second — distinct invocations in the same second (the counterexample)
share one identifier, and only invocations in different whole seconds
are kept apart. -/
theorem stmt_id_collision_iff (t1 t2 : ℚ) :
    genStmtId t1 = genStmtId t2 ↔ pyInt t1 = pyInt t2 := by
  constructor
  · intro h
    apply intToStr_inj
    have hd := congrArg String.data h
    simp only [genStmtId, String.data_append] at hd
    exact String.ext (List.append_cancel_left hd)
  · intro h
    simp [genStmtId, h]
